import Mathlib

set_option maxRecDepth 4096

/-!
Verification of the RallyCal calendar-aggregation core against its
natural-language specification.  Each Python source function that a claim
depends on is shallowly embedded as an executable Lean definition, and the
claims are settled as theorems about those definitions.

Conventions of the embedding:
* Python `datetime` values are `PyDateTime`: a wall-clock instant in seconds
  together with an optional UTC offset (`none` = timezone-naive).
* Python floats in the similarity / weight computations are embedded as `ℚ`.
* Fallible Python code (validators raising `ValueError`, pydantic
  construction) is embedded with `Except String`.
* Dictionaries with string keys are embedded as association lists that keep
  insertion order, matching CPython dict semantics.
-/

namespace RallyCal

/-- Python `datetime`: wall-clock seconds since the epoch as read off the
clock face, plus an optional fixed UTC offset in seconds.  `tz = none`
models a timezone-naive value; `tz = some o` a timezone-aware value whose
UTC instant is `wall - o`. -/
structure PyDateTime where
  wall : Int
  tz : Option Int
deriving DecidableEq, Repr

/-- UTC instant of an aware datetime (the offset of a naive value is taken
as 0, callers guard awareness separately as CPython does). -/
def PyDateTime.instant (d : PyDateTime) : Int :=
  d.wall - d.tz.getD 0

/-- Python comparison of two datetimes: naive/naive compares wall clocks,
aware/aware compares UTC instants, mixed awareness raises `TypeError`. -/
def pyCompare (a b : PyDateTime) : Except String Ordering :=
  match a.tz, b.tz with
  | none, none => .ok (compare a.wall b.wall)
  | some oa, some ob => .ok (compare (a.wall - oa) (b.wall - ob))
  | _, _ => .error "TypeError: cannot compare naive and aware datetimes"

/-- Decidable prefix test on character lists. -/
def listIsPrefix : List Char → List Char → Bool
  | [], _ => true
  | _ :: _, [] => false
  | a :: as, b :: bs => a == b && listIsPrefix as bs

/-- Decidable contiguous-sublist test on character lists. -/
def listIsInfix (needle haystack : List Char) : Bool :=
  match haystack with
  | [] => listIsPrefix needle []
  | _ :: rest => listIsPrefix needle haystack || listIsInfix needle rest

/-- Whitespace test used by the embedded `strip`. -/
def isWsChar (c : Char) : Bool :=
  c = ' ' || c = '\t' || c = '\n' || c = '\r'

/-- Python `str.strip()` restricted to the ASCII whitespace the embedded
strings contain. -/
def pyStrip (s : String) : String :=
  String.mk (((s.toList.dropWhile isWsChar).reverse.dropWhile isWsChar).reverse)

/-- Python `str.lower()` on the ASCII alphabet used by the repository. -/
def pyLower (s : String) : String :=
  String.mk (s.toList.map Char.toLower)

/-- Prefix test `str.startswith`. -/
def pyStartsWith (s pre : String) : Bool :=
  listIsPrefix pre.toList s.toList

/-- Suffix test `str.endswith`. -/
def pyEndsWith (s suf : String) : Bool :=
  listIsPrefix suf.toList.reverse s.toList.reverse

/-- Python `s[n:]` character drop. -/
def pyDrop (s : String) (n : Nat) : String :=
  String.mk (s.toList.drop n)

/-- Split a character list at every occurrence of one separator character
(Python `str.split(sep)` for a one-character separator, keeping empty
pieces). -/
def splitOnChar (sep : Char) : List Char → List (List Char)
  | [] => [[]]
  | c :: rest =>
    let r := splitOnChar sep rest
    if c = sep then [] :: r
    else (c :: r.headD []) :: r.tail

/-- String pieces of `str.split` on a one-character separator. -/
def pySplitChar (sep : Char) (s : String) : List String :=
  (splitOnChar sep s.toList).map String.mk

/-- Joining with a separator (`sep.join(parts)`). -/
def strIntercalate (sep : String) : List String → String
  | [] => ""
  | [x] => x
  | x :: rest => x ++ sep ++ strIntercalate sep rest

/-- Stable insertion into a list sorted by the boolean preorder `le`; the
inserted element goes after every already-placed element it does not
strictly precede, so sorting with it is stable, as CPython's `list.sort`
is. -/
def stableInsert (le : α → α → Bool) (x : α) : List α → List α
  | [] => [x]
  | y :: ys => if le y x then y :: stableInsert le x ys else x :: y :: ys

/-- Stable sort by the boolean preorder `le` (for a total preorder its
output coincides with CPython's stable `list.sort`). -/
def stableSortBy (le : α → α → Bool) (l : List α) : List α :=
  l.foldr (stableInsert le) []

/-- Python `needle in haystack` substring test. -/
def pyContains (haystack needle : String) : Bool :=
  listIsInfix needle.toList haystack.toList

/-- UTF-8 encoding of one character, as byte values. -/
def utf8Char (c : Char) : List Nat :=
  let n := c.toNat
  if n < 0x80 then [n]
  else if n < 0x800 then
    [0xC0 ||| (n >>> 6), 0x80 ||| (n &&& 0x3F)]
  else if n < 0x10000 then
    [0xE0 ||| (n >>> 12), 0x80 ||| ((n >>> 6) &&& 0x3F), 0x80 ||| (n &&& 0x3F)]
  else
    [0xF0 ||| (n >>> 18), 0x80 ||| ((n >>> 12) &&& 0x3F),
     0x80 ||| ((n >>> 6) &&& 0x3F), 0x80 ||| (n &&& 0x3F)]

/-- UTF-8 encoding of a string (Python `str.encode()`). -/
def utf8Bytes (s : String) : List Nat :=
  s.toList.flatMap utf8Char

/-- Number of octets in the UTF-8 encoding of a string
(Python `len(line.encode("utf-8"))`). -/
def utf8Len (s : String) : Nat :=
  (utf8Bytes s).length

/-- The 64 per-round shift amounts of MD5. -/
def md5Shifts : List Nat :=
  [7, 12, 17, 22, 7, 12, 17, 22, 7, 12, 17, 22, 7, 12, 17, 22,
   5, 9, 14, 20, 5, 9, 14, 20, 5, 9, 14, 20, 5, 9, 14, 20,
   4, 11, 16, 23, 4, 11, 16, 23, 4, 11, 16, 23, 4, 11, 16, 23,
   6, 10, 15, 21, 6, 10, 15, 21, 6, 10, 15, 21, 6, 10, 15, 21]

/-- The 64 sine-derived MD5 round constants. -/
def md5K : List Nat :=
  [0xd76aa478, 0xe8c7b756, 0x242070db, 0xc1bdceee,
   0xf57c0faf, 0x4787c62a, 0xa8304613, 0xfd469501,
   0x698098d8, 0x8b44f7af, 0xffff5bb1, 0x895cd7be,
   0x6b901122, 0xfd987193, 0xa679438e, 0x49b40821,
   0xf61e2562, 0xc040b340, 0x265e5a51, 0xe9b6c7aa,
   0xd62f105d, 0x02441453, 0xd8a1e681, 0xe7d3fbc8,
   0x21e1cde6, 0xc33707d6, 0xf4d50d87, 0x455a14ed,
   0xa9e3e905, 0xfcefa3f8, 0x676f02d9, 0x8d2a4c8a,
   0xfffa3942, 0x8771f681, 0x6d9d6122, 0xfde5380c,
   0xa4beea44, 0x4bdecfa9, 0xf6bb4b60, 0xbebfbc70,
   0x289b7ec6, 0xeaa127fa, 0xd4ef3085, 0x04881d05,
   0xd9d4d039, 0xe6db99e5, 0x1fa27cf8, 0xc4ac5665,
   0xf4292244, 0x432aff97, 0xab9423a7, 0xfc93a039,
   0x655b59c3, 0x8f0ccc92, 0xffeff47d, 0x85845dd1,
   0x6fa87e4f, 0xfe2ce6e0, 0xa3014314, 0x4e0811a1,
   0xf7537e82, 0xbd3af235, 0x2ad7d2bb, 0xeb86d391]

/-- 32-bit truncation. -/
def m32 (n : Nat) : Nat := n % 4294967296

/-- 32-bit left rotation. -/
def rotl32 (x n : Nat) : Nat :=
  m32 ((x <<< n) ||| (x >>> (32 - n)))

/-- 32-bit bitwise complement. -/
def not32 (x : Nat) : Nat := x ^^^ 0xffffffff

/-- MD5 padding: append `0x80`, zero-fill to 56 mod 64, then the message
bit length as eight little-endian octets. -/
def md5Pad (msg : List Nat) : List Nat :=
  let bitLen := msg.length * 8
  let padZeros := (119 - msg.length % 64) % 64
  msg ++ [0x80] ++ List.replicate padZeros 0 ++
    (List.range 8).map (fun j => (bitLen >>> (8 * j)) % 256)

/-- Split a byte list into 64-byte blocks (the fuel, always instantiated
with the list length, only bounds the recursion depth). -/
def md5BlocksFuel : Nat → List Nat → List (List Nat)
  | 0, _ => []
  | _, [] => []
  | fuel + 1, l => l.take 64 :: md5BlocksFuel fuel (l.drop 64)

/-- Split a byte list into 64-byte blocks. -/
def md5Blocks (l : List Nat) : List (List Nat) :=
  md5BlocksFuel l.length l

/-- Read the sixteen little-endian 32-bit words of one 64-byte block. -/
def md5Words (block : List Nat) : List Nat :=
  (List.range 16).map (fun i =>
    block.getD (4 * i) 0 + 256 * block.getD (4 * i + 1) 0 +
    65536 * block.getD (4 * i + 2) 0 + 16777216 * block.getD (4 * i + 3) 0)

/-- One MD5 round applied to the running state `(a, b, c, d)`. -/
def md5Round (w : List Nat) (st : Nat × Nat × Nat × Nat) (i : Nat) :
    Nat × Nat × Nat × Nat :=
  let (a, b, c, d) := st
  let (f, g) :=
    if i < 16 then ((b &&& c) ||| (not32 b &&& d), i)
    else if i < 32 then ((d &&& b) ||| (not32 d &&& c), (5 * i + 1) % 16)
    else if i < 48 then (b ^^^ c ^^^ d, (3 * i + 5) % 16)
    else (c ^^^ (b ||| not32 d), (7 * i) % 16)
  let f2 := m32 (f + a + md5K.getD i 0 + w.getD g 0)
  (d, m32 (b + rotl32 f2 (md5Shifts.getD i 0)), b, c)

/-- MD5 compression of one block into the chaining state. -/
def md5Compress (st : Nat × Nat × Nat × Nat) (block : List Nat) :
    Nat × Nat × Nat × Nat :=
  let w := md5Words block
  let (a, b, c, d) := (List.range 64).foldl (md5Round w) st
  (m32 (st.1 + a), m32 (st.2.1 + b), m32 (st.2.2.1 + c), m32 (st.2.2.2 + d))

/-- Little-endian 4-octet serialization of a 32-bit word. -/
def leBytes (x : Nat) : List Nat :=
  [x % 256, (x >>> 8) % 256, (x >>> 16) % 256, (x >>> 24) % 256]

/-- The 16-octet MD5 digest of a byte sequence (`hashlib.md5(...).digest()`). -/
def md5Digest (msg : List Nat) : List Nat :=
  let st := (md5Blocks (md5Pad msg)).foldl md5Compress
    (0x67452301, 0xefcdab89, 0x98badcfe, 0x10325476)
  leBytes st.1 ++ leBytes st.2.1 ++ leBytes st.2.2.1 ++ leBytes st.2.2.2

/-- Lowercase hex character of a value below 16. -/
def hexChar (n : Nat) : Char :=
  if n < 10 then Char.ofNat (48 + n) else Char.ofNat (87 + n)

/-- Lowercase hex string of a byte list (`hexdigest()`). -/
def bytesToHex (bytes : List Nat) : String :=
  String.mk (bytes.flatMap (fun b => [hexChar (b / 16), hexChar (b % 16)]))

/-- Python `hashlib.md5(s.encode()).hexdigest()`. -/
def md5Hex (s : String) : String :=
  bytesToHex (md5Digest (utf8Bytes s))

/-- Event type classifications (`EventType` in `models/event.py`). -/
inductive EventType where
  | game | practice | tournament | meeting
  | fundraiser | social | travel | other
deriving DecidableEq, Repr

/-- Event status values (`EventStatus` in `models/event.py`). -/
inductive EventStatus where
  | confirmed | tentative | cancelled | postponed
deriving DecidableEq, Repr

/-- The core calendar event record (`EventModel` in `models/event.py`).
Metadata values are carried as strings; UUIDs are modelled as naturals. -/
structure EventModel where
  id : Nat
  original_uid : Option String
  title : String
  description : Option String
  start_time : PyDateTime
  end_time : PyDateTime
  all_day : Bool
  timezone_name : String
  location : Option String
  source_name : String
  source_url : Option String
  source_calendar_id : Option String
  color : Option String
  event_type : Option EventType
  tags : List String
  status : EventStatus
  sequence : Int
  created_at : PyDateTime
  last_modified : PyDateTime
  last_fetched : PyDateTime
  content_hash : Option String
  duplicate_of : Option Nat
  recurrence_id : Option String
  recurrence_rule : Option String
  metadata : List (String × String)
deriving DecidableEq, Repr

/-- Raw keyword arguments to the `EventModel` constructor, before pydantic
validation runs. -/
structure EventInput where
  id : Nat
  original_uid : Option String := none
  title : String
  description : Option String := none
  start_time : PyDateTime
  end_time : PyDateTime
  all_day : Bool := false
  timezone_name : String := "UTC"
  location : Option String := none
  source_name : String
  source_url : Option String := none
  source_calendar_id : Option String := none
  color : Option String := none
  event_type : Option EventType := none
  tags : List String := []
  status : EventStatus := .confirmed
  sequence : Int := 0
  created_at : PyDateTime
  last_modified : PyDateTime
  last_fetched : PyDateTime
  content_hash : Option String := none
  duplicate_of : Option Nat := none
  recurrence_id : Option String := none
  recurrence_rule : Option String := none
  metadata : List (String × String) := []
deriving Repr

/-- Hex-digit test matching the character class `[0-9A-Fa-f]`. -/
def isHexChar (c : Char) : Bool :=
  c.isDigit || ('a' ≤ c && c ≤ 'f') || ('A' ≤ c && c ≤ 'F')

/-- The validator `EventModel.validate_color_format`: a present color must
match `^#[0-9A-Fa-f]{6}$`. -/
def validateColorFormat (v : Option String) : Except String (Option String) :=
  match v with
  | none => .ok none
  | some s =>
    match s.toList with
    | '#' :: rest =>
      if rest.length = 6 ∧ rest.all isHexChar then .ok (some s)
      else .error "Color must be in hex format"
    | _ => .error "Color must be in hex format"

/-- The validator `EventModel.validate_tags`: strip each tag, drop empties,
then drop case-insensitive duplicates keeping first occurrences. -/
def cleanTags (tags : List String) : List String :=
  let cleaned := (tags.map pyStrip).filter (fun t => t ≠ "")
  (cleaned.foldl
    (fun (acc : List String × List String) tag =>
      if (pyLower tag) ∈ acc.1 then acc
      else (acc.1 ++ [pyLower tag], acc.2 ++ [tag]))
    ([], [])).2

/-- The validator `EventModel.validate_timezone_aware`: a naive datetime is
stamped with UTC, keeping its wall clock. -/
def validateTimezoneAware (v : PyDateTime) : PyDateTime :=
  match v.tz with
  | none => { v with tz := some 0 }
  | some _ => v

/-- The validator `EventModel.validate_end_after_start` applied to the raw
`end_time` with the already-validated `start_time` in `values`: Python
raises a validation error both when `v <= start_time` holds and when the
mixed-awareness comparison itself raises `TypeError`. -/
def validateEndAfterStart (start v : PyDateTime) : Except String PyDateTime :=
  match pyCompare v start with
  | .error e => .error e
  | .ok o => if o = Ordering.gt then .ok v else .error "End time must be after start time"

/-- String length bound used by pydantic `Field(min_length, max_length)`. -/
def checkLen (lo hi : Nat) (s : String) : Bool :=
  decide (lo ≤ s.length) && decide (s.length ≤ hi)

/-- Pydantic construction of an `EventModel`: runs each field validator in
field-definition order and fails if any raises.  (CPython collects the
errors of all fields before failing; the embedded constructor stops at the
first, which yields the same success set and the same constructed value.) -/
def mkEventModel (i : EventInput) : Except String EventModel :=
  if ¬ checkLen 1 255 i.title then .error "title length out of bounds"
  else if (match i.description with
    | some d => ! checkLen 0 2000 d
    | none => false) then .error "description too long"
  else
    match validateEndAfterStart (validateTimezoneAware i.start_time) i.end_time with
    | .error e => .error e
    | .ok rawEnd =>
      if (match i.location with
        | some l => ! checkLen 0 255 l
        | none => false) then .error "location too long"
      else
        match validateColorFormat i.color with
        | .error e => .error e
        | .ok color =>
          if i.sequence < 0 then .error "sequence must be non-negative"
          else .ok {
            id := i.id
            original_uid := i.original_uid
            title := i.title
            description := i.description
            start_time := validateTimezoneAware i.start_time
            end_time := validateTimezoneAware rawEnd
            all_day := i.all_day
            timezone_name := i.timezone_name
            location := i.location
            source_name := i.source_name
            source_url := i.source_url
            source_calendar_id := i.source_calendar_id
            color := color
            event_type := i.event_type
            tags := cleanTags i.tags
            status := i.status
            sequence := i.sequence
            created_at := validateTimezoneAware i.created_at
            last_modified := validateTimezoneAware i.last_modified
            last_fetched := validateTimezoneAware i.last_fetched
            content_hash := i.content_hash
            duplicate_of := i.duplicate_of
            recurrence_id := i.recurrence_id
            recurrence_rule := i.recurrence_rule
            metadata := i.metadata }

/-- Circuit breaker states (`CircuitState` in `utils/circuit_breaker.py`). -/
inductive CircuitState where
  | closed | open | halfOpen
deriving DecidableEq, Repr

/-- Mutable state of a `CircuitBreaker` instance. -/
structure CBState where
  state : CircuitState
  failureCount : Nat
  lastFailureTime : Option Int
  lastSuccessTime : Option Int
  totalRequests : Nat
  totalFailures : Nat
  totalSuccesses : Nat
  stateChanges : Nat
deriving DecidableEq, Repr

/-- Static configuration of a `CircuitBreaker`: failure threshold and
recovery timeout in seconds. -/
structure CBConfig where
  failureThreshold : Nat
  recoveryTimeout : Int
deriving Repr

/-- State produced by `CircuitBreaker.__init__`. -/
def cbInit : CBState :=
  { state := .closed, failureCount := 0, lastFailureTime := none,
    lastSuccessTime := none, totalRequests := 0, totalFailures := 0,
    totalSuccesses := 0, stateChanges := 0 }

/-- What the wrapped operation would do if it were invoked: succeed, raise
the configured (expected) exception class, or raise an unrelated one. -/
inductive CBOutcome where
  | success | expectedFailure | unexpectedFailure
deriving DecidableEq, Repr

/-- Observable result of `CircuitBreaker.call`: fast-failed with the
distinct `CircuitBreakerError` (operation not invoked), returned the
operation's value, or re-raised the operation's exception. -/
inductive CBResult where
  | breakerOpenError | returned | raisedExpected | raisedUnexpected
deriving DecidableEq, Repr

/-- The check `CircuitBreaker._should_attempt_reset`, reading the
breaker's recorded last failure time. -/
def cbShouldAttemptReset (cfg : CBConfig) (lastFailure : Option Int)
    (now : Int) : Bool :=
  match lastFailure with
  | none => true
  | some t => now - t ≥ cfg.recoveryTimeout

/-- The transition `CircuitBreaker._transition_to_half_open`. -/
def cbToHalfOpen (s : CBState) : CBState :=
  { s with state := .halfOpen, stateChanges := s.stateChanges + 1 }

/-- The transition `CircuitBreaker._close_circuit`. -/
def cbCloseCircuit (s : CBState) : CBState :=
  { s with state := .closed, failureCount := 0,
           stateChanges := s.stateChanges + 1 }

/-- The transition `CircuitBreaker._open_circuit`. -/
def cbOpenCircuit (s : CBState) : CBState :=
  { s with state := .open, stateChanges := s.stateChanges + 1 }

/-- The handler `CircuitBreaker._on_success`. -/
def cbOnSuccess (s : CBState) (now : Int) : CBState :=
  let s := { s with totalSuccesses := s.totalSuccesses + 1,
                    lastSuccessTime := some now }
  if s.state = .halfOpen then cbCloseCircuit s
  else if s.state = .closed then { s with failureCount := 0 }
  else s

/-- The handler `CircuitBreaker._on_failure`. -/
def cbOnFailure (cfg : CBConfig) (s : CBState) (now : Int) : CBState :=
  let s := { s with totalFailures := s.totalFailures + 1,
                    failureCount := s.failureCount + 1,
                    lastFailureTime := some now }
  if s.state = .halfOpen then cbOpenCircuit s
  else if s.state = .closed ∧ s.failureCount ≥ cfg.failureThreshold then
    cbOpenCircuit s
  else s

/-- The guarded execution `CircuitBreaker.call`, with the wrapped
operation's behaviour supplied as `outcome` and the clock as `now`. -/
def cbCall (cfg : CBConfig) (s : CBState) (now : Int) (outcome : CBOutcome) :
    CBResult × CBState :=
  let s := { s with totalRequests := s.totalRequests + 1 }
  let attempt : Option CBState :=
    if s.state = .open then
      if cbShouldAttemptReset cfg s.lastFailureTime now then
        some (cbToHalfOpen s)
      else none
    else some s
  match attempt with
  | none => (.breakerOpenError, s)
  | some s =>
    match outcome with
    | .success => (.returned, cbOnSuccess s now)
    | .expectedFailure => (.raisedExpected, cbOnFailure cfg s now)
    | .unexpectedFailure => (.raisedUnexpected, s)

/-- Iterated circuit-breaker calls over a trace of timestamped outcomes. -/
def cbRun (cfg : CBConfig) (s : CBState) : List (Int × CBOutcome) → CBState
  | [] => s
  | (t, o) :: rest => cbRun cfg (cbCall cfg s t o).2 rest

/-- Per-pair similarity breakdown produced by
`EventDeduplicator._calculate_similarity_factors`. -/
structure SimilarityFactors where
  title : ℚ
  time : ℚ
  location : ℚ
  description : ℚ
  sourceDifference : ℚ
  eventTypeMatch : ℚ
deriving DecidableEq, Repr

/-- Result record of the duplicate analysis of one event
(`DuplicationResult` in `utils/deduplicator.py`).  `similarityFactors` is
`none` when no candidate was scored (the Python code leaves the initial
empty dict in place). -/
structure DuplicationResult where
  isDuplicate : Bool
  confidence : ℚ
  canonicalEvent : Option EventModel
  similarityFactors : Option SimilarityFactors
deriving Repr

/-- Normalized configuration of an `EventDeduplicator` after `__init__`. -/
structure DedupConfig where
  titleWeight : ℚ
  timeWeight : ℚ
  locationWeight : ℚ
  descriptionWeight : ℚ
  duplicateThreshold : ℚ
  timeToleranceSeconds : ℚ
deriving Repr

/-- The constructor `EventDeduplicator.__init__`: weights are renormalized
only when their total differs from 1.0 by more than 0.01; renormalizing an
all-zero weight vector raises `ZeroDivisionError`. -/
def dedupInit (titleWeight timeWeight locationWeight descriptionWeight : ℚ)
    (duplicateThreshold : ℚ) (timeToleranceMinutes : Int) :
    Except String DedupConfig :=
  let total := titleWeight + timeWeight + locationWeight + descriptionWeight
  if |total - 1| > 1 / 100 then
    if total = 0 then .error "ZeroDivisionError"
    else .ok {
      titleWeight := titleWeight / total
      timeWeight := timeWeight / total
      locationWeight := locationWeight / total
      descriptionWeight := descriptionWeight / total
      duplicateThreshold := duplicateThreshold
      timeToleranceSeconds := (timeToleranceMinutes : ℚ) * 60 }
  else .ok {
    titleWeight := titleWeight
    timeWeight := timeWeight
    locationWeight := locationWeight
    descriptionWeight := descriptionWeight
    duplicateThreshold := duplicateThreshold
    timeToleranceSeconds := (timeToleranceMinutes : ℚ) * 60 }

/-- The scorer `EventDeduplicator._calculate_time_similarity`, over exact
rationals: start-time closeness weighted 0.8 against the configured
tolerance, duration closeness weighted 0.2 against two hours. -/
def calcTimeSimilarity (tolSeconds : ℚ)
    (start1 end1 start2 end2 : PyDateTime) : ℚ :=
  let startDiff : ℚ := |(start1.instant - start2.instant : Int)|
  let duration1 : ℚ := ((end1.instant - start1.instant : Int) : ℚ)
  let duration2 : ℚ := ((end2.instant - start2.instant : Int) : ℚ)
  let durationDiff := |duration1 - duration2|
  let startSim := max 0 (1 - startDiff / tolSeconds)
  let durationSim := max 0 (1 - durationDiff / 7200)
  min 1 (startSim * (8 / 10) + durationSim * (2 / 10))

/-- The factor computation `EventDeduplicator._calculate_similarity_factors`.
The fuzzy text scorer `_calculate_text_similarity` (difflib sequence
matching plus sports-pattern boosts) is passed in as `textSim`; the time,
source and event-type factors are computed exactly as in the source. -/
def calcSimilarityFactors (textSim : String → String → ℚ) (tolSeconds : ℚ)
    (event1 event2 : EventModel) : SimilarityFactors :=
  { title := textSim event1.title event2.title
    time := calcTimeSimilarity tolSeconds event1.start_time event1.end_time
      event2.start_time event2.end_time
    location := textSim (event1.location.getD "") (event2.location.getD "")
    description := textSim (event1.description.getD "") (event2.description.getD "")
    sourceDifference := if event1.source_name = event2.source_name then 0 else 1
    eventTypeMatch := if event1.event_type = event2.event_type then 1 else 0 }

/-- The combiner `EventDeduplicator._calculate_overall_confidence`:
weighted sum, a 0.7 same-source penalty, a 1.1 matching-type bonus, capped
at 1.0. -/
def calcOverallConfidence (cfg : DedupConfig) (f : SimilarityFactors) : ℚ :=
  let confidence :=
    f.title * cfg.titleWeight + f.time * cfg.timeWeight +
    f.location * cfg.locationWeight + f.description * cfg.descriptionWeight
  let confidence := if f.sourceDifference = 0 then confidence * (7 / 10) else confidence
  let confidence := if f.eventTypeMatch = 1 then confidence * (11 / 10) else confidence
  min 1 confidence

/-- Bucket key of `EventDeduplicator._create_time_buckets`: the event's
start instant truncated to midnight of its own wall-clock day, together
with its timezone (the Python key is the `isoformat` string of that
truncated datetime, which two datetimes share exactly when day and offset
agree). -/
def bucketKey (d : PyDateTime) : Int × Option Int :=
  ((d.wall.fdiv 86400) * 86400, d.tz)

/-- Append-preserving insertion into the day-bucket association list. -/
def addToBucket (buckets : List ((Int × Option Int) × List EventModel))
    (k : Int × Option Int) (e : EventModel) :
    List ((Int × Option Int) × List EventModel) :=
  match buckets with
  | [] => [(k, [e])]
  | (k2, es) :: rest =>
    if k2 = k then (k2, es ++ [e]) :: rest
    else (k2, es) :: addToBucket rest k e

/-- The grouping `EventDeduplicator._create_time_buckets`. -/
def createTimeBuckets (events : List EventModel) :
    List ((Int × Option Int) × List EventModel) :=
  events.foldl (fun b e => addToBucket b (bucketKey e.start_time) e) []

/-- The sort key of `_find_potential_duplicates`: new events after existing
ones, then by start time (aware datetimes compare by instant). -/
def candidateKeyLE (existing : List EventModel) (a b : EventModel) : Bool :=
  let ka := a.id ∉ existing.map (·.id)
  let kb := b.id ∉ existing.map (·.id)
  if ka = kb then a.start_time.instant ≤ b.start_time.instant
  else kb

/-- The candidate search `EventDeduplicator._find_potential_duplicates`:
events of the same and the two adjacent day buckets whose start instant is
within the time tolerance, existing events sorted first. -/
def findPotentialDuplicates (tolSeconds : ℚ) (event : EventModel)
    (buckets : List ((Int × Option Int) × List EventModel))
    (existing : List EventModel) : List EventModel :=
  let k := bucketKey event.start_time
  let collected := ([-1, 0, 1] : List Int).flatMap (fun off =>
    match buckets.lookup (k.1 + off * 86400, k.2) with
    | none => []
    | some es => es.filter (fun c =>
        (|(c.start_time.instant - event.start_time.instant : Int)| : ℚ)
          ≤ tolSeconds))
  stableSortBy (candidateKeyLE existing) collected

/-- The best-candidate fold inside `EventDeduplicator.find_duplicates`:
starting from confidence 0.0, a candidate strictly improving on the best
seen so far replaces match and factor breakdown. -/
def bestCandidate (textSim : String → String → ℚ) (cfg : DedupConfig)
    (event : EventModel) (candidates : List EventModel) :
    ℚ × Option EventModel × Option SimilarityFactors :=
  candidates.foldl
    (fun best candidate =>
      if candidate.id = event.id then best
      else
        let factors := calcSimilarityFactors textSim cfg.timeToleranceSeconds
          event candidate
        let confidence := calcOverallConfidence cfg factors
        if confidence > best.1 then (confidence, some candidate, some factors)
        else best)
    (0, none, none)

/-- The per-event body of `EventDeduplicator.find_duplicates`: score the
event against its candidate list and record the verdict. -/
def dupResultFor (textSim : String → String → ℚ) (cfg : DedupConfig)
    (existing : List EventModel)
    (buckets : List ((Int × Option Int) × List EventModel))
    (event : EventModel) : DuplicationResult :=
  let candidates := findPotentialDuplicates cfg.timeToleranceSeconds event
    buckets existing
  let best := bestCandidate textSim cfg event candidates
  { isDuplicate := best.1 ≥ cfg.duplicateThreshold
    confidence := best.1
    canonicalEvent := if best.1 ≥ cfg.duplicateThreshold then best.2.1 else none
    similarityFactors := best.2.2 }

/-- The driver `EventDeduplicator.find_duplicates`: buckets existing plus
new events, scores each new event against its candidates, and records a
`DuplicationResult` keyed by the event id (dictionary insertion order). -/
def findDuplicates (textSim : String → String → ℚ) (cfg : DedupConfig)
    (events : List EventModel) (existing : List EventModel) :
    List (Nat × DuplicationResult) :=
  let buckets := createTimeBuckets (existing ++ events)
  events.map (fun event =>
    (event.id, dupResultFor textSim cfg existing buckets event))

/-- Left-pad a natural's decimal digits with zeros to a given width. -/
def padNum (width n : Nat) : String :=
  let s := toString n
  String.mk (List.replicate (width - s.length) '0') ++ s

/-- Proleptic-Gregorian civil date of a day count since 1970-01-01
(standard era-based conversion). -/
def civilFromDays (z0 : Int) : Int × Nat × Nat :=
  let z := z0 + 719468
  let era := z.fdiv 146097
  let doe := (z - era * 146097).toNat
  let yoe := (doe - doe / 1460 + doe / 36524 - doe / 146096) / 365
  let y : Int := (yoe : Int) + era * 400
  let doy := doe - (365 * yoe + yoe / 4 - yoe / 100)
  let mp := (5 * doy + 2) / 153
  let d := doy - (153 * mp + 2) / 5 + 1
  let m := if mp < 10 then mp + 3 else mp - 9
  (if m ≤ 2 then y + 1 else y, m, d)

/-- Python `str(timedelta_offset)` fragment `+HH:MM` / `-HH:MM` used when
printing an aware datetime's UTC offset (offset given in seconds). -/
def formatUtcOffset (o : Int) : String :=
  let sign := if o < 0 then "-" else "+"
  let a := o.natAbs
  sign ++ padNum 2 (a / 3600) ++ ":" ++ padNum 2 ((a % 3600) / 60)

/-- Shared date-and-time rendering of a wall-clock second count, with a
caller-chosen separator between date and time. -/
def formatWall (sep : String) (wall : Int) : String :=
  let days := wall.fdiv 86400
  let secs := (wall - days * 86400).toNat
  let (y, m, d) := civilFromDays days
  padNum 4 y.toNat ++ "-" ++ padNum 2 m ++ "-" ++ padNum 2 d ++ sep ++
    padNum 2 (secs / 3600) ++ ":" ++ padNum 2 ((secs % 3600) / 60) ++ ":" ++
    padNum 2 (secs % 60)

/-- Python `str(datetime)`: space separator, trailing UTC offset when
aware (the embedded values carry whole seconds, so no microsecond part is
printed). -/
def pyDateTimeStr (dt : PyDateTime) : String :=
  formatWall " " dt.wall ++ (match dt.tz with
    | none => ""
    | some o => formatUtcOffset o)

/-- Python `datetime.isoformat()`: `T` separator, trailing UTC offset when
aware. -/
def pyIsoFormat (dt : PyDateTime) : String :=
  formatWall "T" dt.wall ++ (match dt.tz with
    | none => ""
    | some o => formatUtcOffset o)

/-- The method `EventModel.update_hash`: MD5 over the concatenation of
title, printed start and end times, location and description. -/
def updateHash (e : EventModel) : EventModel :=
  { e with content_hash := some (md5Hex
      (e.title ++ pyDateTimeStr e.start_time ++ pyDateTimeStr e.end_time ++
       e.location.getD "" ++ e.description.getD "")) }

/-- Python truthiness of an optional string: present and non-empty. -/
def pyTruthy (o : Option String) : Bool :=
  o.getD "" ≠ ""

/-- Heap of mutable Python container objects: dictionaries and lists
addressed by allocation index.  Only `merge_duplicate_events` mutates
containers in place, so only the metadata dicts and tag lists live here. -/
structure Store where
  dicts : List (List (String × String))
  lists : List (List String)
deriving DecidableEq, Repr

/-- Allocate a new dictionary object. -/
def Store.allocDict (s : Store) (v : List (String × String)) : Store × Nat :=
  ({ s with dicts := s.dicts ++ [v] }, s.dicts.length)

/-- Allocate a new list object. -/
def Store.allocList (s : Store) (v : List String) : Store × Nat :=
  ({ s with lists := s.lists ++ [v] }, s.lists.length)

/-- Read a dictionary object. -/
def Store.getDict (s : Store) (r : Nat) : List (String × String) :=
  s.dicts.getD r []

/-- Read a list object. -/
def Store.getList (s : Store) (r : Nat) : List String :=
  s.lists.getD r []

/-- Overwrite a dictionary object in place. -/
def Store.setDict (s : Store) (r : Nat) (v : List (String × String)) : Store :=
  { s with dicts := s.dicts.set r v }

/-- Python `dict[key] = value`: replace the existing binding in place,
otherwise append in insertion order. -/
def dictSet (d : List (String × String)) (k v : String) :
    List (String × String) :=
  match d with
  | [] => [(k, v)]
  | (k2, v2) :: rest =>
    if k2 = k then (k2, v) :: rest else (k2, v2) :: dictSet rest k v

/-- An `EventModel` as a Python object: immutable attribute values plus
references into the `Store` for its mutable `tags` list and `metadata`
dict. -/
structure EventObj where
  value : EventModel
  tagsRef : Nat
  metadataRef : Nat
deriving DecidableEq, Repr

/-- Materialize a validated `EventModel` as a fresh object with its own
containers. -/
def allocEvent (s : Store) (e : EventModel) : Store × EventObj :=
  let (s, tagsRef) := s.allocList e.tags
  let (s, metadataRef) := s.allocDict e.metadata
  (s, { value := e, tagsRef := tagsRef, metadataRef := metadataRef })

/-- Pydantic assignment validation of `description` (max length 2000);
`validate_assignment = True` re-runs field constraints on attribute
assignment. -/
def assignDescription (e : EventModel) (v : String) : Except String EventModel :=
  if checkLen 0 2000 v then .ok { e with description := some v }
  else .error "description too long"

/-- Pydantic assignment validation of `location` (max length 255). -/
def assignLocation (e : EventModel) (v : String) : Except String EventModel :=
  if checkLen 0 255 v then .ok { e with location := some v }
  else .error "location too long"

/-- Python `list(set(a))` over strings.  CPython's set iteration order is
hash-dependent; the embedding fixes the first-occurrence order, which
agrees with CPython up to permutation. -/
def pySetList (a : List String) : List String :=
  a.foldl (fun acc x => if x ∈ acc then acc else acc ++ [x]) []

/-- The description-merge step of `merge_duplicate_events`: adopt the
duplicate's description when the canonical one is blank, append it when
materially different (not already a substring), each assignment
re-validated by pydantic. -/
def mergeDescription (canonical duplicate mergedVal : EventModel) :
    Except String EventModel :=
  if pyTruthy duplicate.description ∧ ¬ pyTruthy canonical.description then
    assignDescription mergedVal (duplicate.description.getD "")
  else if pyTruthy duplicate.description ∧ pyTruthy canonical.description then
    if ¬ pyContains (canonical.description.getD "")
        (duplicate.description.getD "") then
      assignDescription mergedVal
        (canonical.description.getD "" ++ "\n\n" ++
         duplicate.description.getD "")
    else .ok mergedVal
  else .ok mergedVal

/-- The location-merge step of `merge_duplicate_events`: adopt the
duplicate's location when the canonical one is blank or strictly
shorter. -/
def mergeLocation (canonical duplicate mergedVal : EventModel) :
    Except String EventModel :=
  if pyTruthy duplicate.location ∧ ¬ pyTruthy canonical.location then
    assignLocation mergedVal (duplicate.location.getD "")
  else if pyTruthy duplicate.location ∧ pyTruthy canonical.location ∧
      (duplicate.location.getD "").length > (canonical.location.getD "").length
  then
    assignLocation mergedVal (duplicate.location.getD "")
  else .ok mergedVal

/-- The merger `EventDeduplicator.merge_duplicate_events`, over the object
store: copies the canonical event shallowly, merges description, location,
tags, modification time and merge metadata into the copy, then marks the
duplicate object with a back-reference.  Returns the updated store and the
post-call canonical, duplicate and merged objects. -/
def mergeDuplicateEvents (s : Store) (canonicalEvent duplicateEvent : EventObj)
    (now : PyDateTime) :
    Except String (Store × EventObj × EventObj × EventObj) :=
  let canonical := canonicalEvent.value
  let duplicate := duplicateEvent.value
  match mergeDescription canonical duplicate canonical with
  | .error e => .error e
  | .ok mv1 =>
    match mergeLocation canonical duplicate mv1 with
    | .error e => .error e
    | .ok mv2 =>
      let mergedTags := pySetList (s.getList canonicalEvent.tagsRef ++
        s.getList duplicateEvent.tagsRef)
      let s1 := (s.allocList (cleanTags mergedTags)).1
      let newTagsRef := (s.allocList (cleanTags mergedTags)).2
      let mv3 := { mv2 with tags := cleanTags mergedTags }
      let mv4 :=
        if duplicate.last_modified.instant > canonical.last_modified.instant
        then { mv3 with last_modified := duplicate.last_modified }
        else mv3
      let s2 := (s1.allocDict (s1.getDict canonicalEvent.metadataRef)).1
      let newMetaRef := (s1.allocDict (s1.getDict canonicalEvent.metadataRef)).2
      let s3 := s2.setDict newMetaRef
        (dictSet (s2.getDict newMetaRef) "merged_from" (toString duplicate.id))
      let s4 := s3.setDict newMetaRef
        (dictSet (s3.getDict newMetaRef) "merge_timestamp" (pyIsoFormat now))
      let mv5 := { mv4 with metadata := s4.getDict newMetaRef }
      let duplicateAfter : EventObj :=
        { duplicateEvent with
            value := { duplicate with duplicate_of := some canonical.id } }
      .ok (s4, canonicalEvent, duplicateAfter,
        { value := mv5, tagsRef := newTagsRef, metadataRef := newMetaRef })

/-- Python `str.upper()` on the ASCII alphabet used by the repository. -/
def pyUpper (s : String) : String :=
  String.mk (s.toList.map Char.toUpper)

/-- The predefined palette `ColorManager.DEFAULT_PALETTE`. -/
def DEFAULT_PALETTE : List String :=
  ["#FF5722", "#2196F3", "#4CAF50", "#FF9800", "#9C27B0",
   "#F44336", "#009688", "#3F51B5", "#8BC34A", "#FF5722",
   "#795548", "#607D8B", "#E91E63", "#CDDC39", "#FFC107",
   "#673AB7", "#00BCD4", "#FFEB3B", "#9E9E9E", "#FF6F00"]

/-- The table `ColorManager.SPORT_COLORS`, in insertion order. -/
def SPORT_COLORS : List (String × String) :=
  [("soccer", "#00AA00"), ("football", "#8B4513"), ("basketball", "#FF8800"),
   ("baseball", "#FF0000"), ("hockey", "#0066CC"), ("tennis", "#FFFF00"),
   ("swimming", "#00CCFF"), ("track", "#FF6600"), ("volleyball", "#FF69B4"),
   ("lacrosse", "#800080"), ("wrestling", "#8B0000"), ("golf", "#228B22"),
   ("cross country", "#DC143C"), ("softball", "#FFD700")]

/-- The table `ColorManager.TEAM_COLORS`, in insertion order. -/
def TEAM_COLORS : List (String × String) :=
  [("eagles", "#8B4513"), ("tigers", "#FF8C00"), ("lions", "#DAA520"),
   ("bears", "#654321"), ("wolves", "#696969"), ("sharks", "#4682B4"),
   ("hawks", "#8B0000"), ("falcons", "#2F4F4F"), ("panthers", "#000000"),
   ("bulls", "#DC143C"), ("rams", "#4169E1"), ("saints", "#FFD700"),
   ("giants", "#0000FF"), ("jets", "#006400"), ("raiders", "#C0C0C0"),
   ("chiefs", "#FF0000"), ("broncos", "#FF8C00"), ("steelers", "#000000"),
   ("cowboys", "#4169E1"), ("patriots", "#002244"), ("dolphins", "#008B8B"),
   ("cardinals", "#8B0000"), ("vikings", "#4B0082"), ("packers", "#006400"),
   ("seahawks", "#005A8B"), ("chargers", "#FFD700"), ("ravens", "#4B0082"),
   ("titans", "#4169E1")]

/-- The normalizer `ColorManager._validate_color`: strip, prepend a missing
`#`, require `#` plus six hex digits, return uppercased. -/
def validateColor (color : String) : Except String String :=
  let color := pyStrip color
  let color := if pyStartsWith color "#" then color else "#" ++ color
  match color.toList with
  | '#' :: rest =>
    if rest.length = 6 ∧ rest.all isHexChar then .ok (pyUpper color)
    else .error "Invalid color format"
  | _ => .error "Invalid color format"

/-- Configuration of a `ColorManager` instance after `__init__`. -/
structure ColorManager where
  palette : List String
  useSportColors : Bool
  useTeamColors : Bool
deriving DecidableEq, Repr

/-- The constructor `ColorManager.__init__`: an empty or omitted custom
palette falls back to the default palette, and every palette entry is
validated and normalized. -/
def initColorManager (customPalette : Option (List String))
    (useSportColors useTeamColors : Bool) : Except String ColorManager := do
  let palette := match customPalette with
    | none => DEFAULT_PALETTE
    | some [] => DEFAULT_PALETTE
    | some p => p
  let palette ← palette.mapM validateColor
  .ok { palette := palette, useSportColors := useSportColors,
        useTeamColors := useTeamColors }

/-- Call context of `assign_color` (string-keyed Python kwargs dict). -/
def ColorContext := List (String × String)

/-- The lookup `ColorManager._get_sport_color`: explicit sport from
context, then sport keywords as substrings of the identifier, first match
in table order. -/
def getSportColor (identifier : String) (context : ColorContext) :
    Option String :=
  let sport := pyLower ((context.lookup "sport").getD "")
  match SPORT_COLORS.lookup sport with
  | some c => some c
  | none =>
    let identifierLower := pyLower identifier
    (SPORT_COLORS.find? (fun p => pyContains identifierLower p.1)).map (·.2)

/-- The lookup `ColorManager._get_team_color`: explicit team from context,
then team names as substrings of the identifier, first match in table
order. -/
def getTeamColor (identifier : String) (context : ColorContext) :
    Option String :=
  let team := pyLower ((context.lookup "team").getD "")
  match TEAM_COLORS.lookup team with
  | some c => some c
  | none =>
    let identifierLower := pyLower identifier
    (TEAM_COLORS.find? (fun p => pyContains identifierLower p.1)).map (·.2)

/-- The fallback `ColorManager._hash_to_color`: the first four octets of
the MD5 digest of the identifier, read big-endian, reduced modulo the
palette size. -/
def hashToColor (m : ColorManager) (identifier : String) : String :=
  let digest := md5Digest (utf8Bytes identifier)
  let hashInt := digest.getD 0 0 * 16777216 + digest.getD 1 0 * 65536 +
    digest.getD 2 0 * 256 + digest.getD 3 0
  m.palette.getD (hashInt % m.palette.length) ""

/-- The resolver `ColorManager.assign_color`: sport table, then team
table, then deterministic hash into the palette.  The method reads only
its arguments and the constructor-time configuration and assigns no
attribute, so it is embedded as a pure function of those. -/
def assignColor (m : ColorManager) (identifier : String)
    (context : ColorContext) : String :=
  match (if m.useSportColors then getSportColor identifier context else none) with
  | some c => c
  | none =>
    match (if m.useTeamColors then getTeamColor identifier context else none) with
    | some c => c
    | none => hashToColor m identifier

/-- One operating-system process of the interpreter.  The only per-process
source of hash nondeterminism Python offers here is the string-hash
randomization seed (`PYTHONHASHSEED`); `assign_color` hashes with
`hashlib.md5`, which never consults it. -/
structure RunEnv where
  hashSeed : Nat
deriving Repr

/-- The observable result of calling `assign_color` inside a given process
run: the embedded call never reads the run environment because no code
path of `assign_color` consults run-local state. -/
def assignColorInRun (_env : RunEnv) (m : ColorManager) (identifier : String)
    (context : ColorContext) : String :=
  assignColor m identifier context

/-- One parsed `VEVENT` component as handed to
`CalendarFetcher._parse_event_component`: optional text properties,
optional start and end instants, and the category strings. -/
structure VEventComponent where
  summary : Option String := none
  description : Option String := none
  location : Option String := none
  dtstart : Option PyDateTime := none
  dtend : Option PyDateTime := none
  uid : Option String := none
  status : Option String := none
  categories : List String := []
deriving Repr

/-- The keyword table of `CalendarFetcher._detect_event_type`, in
insertion order. -/
def typeKeywords : List (EventType × List String) :=
  [(.game, ["game", "match", "competition", "vs", "against", "@"]),
   (.practice, ["practice", "training", "drill", "scrimmage", "workout"]),
   (.tournament, ["tournament", "championship", "cup", "classic", "invitational"]),
   (.meeting, ["meeting", "parent", "team meeting", "coach meeting"]),
   (.fundraiser, ["fundraiser", "car wash", "bake sale", "raffle"]),
   (.social, ["party", "banquet", "celebration", "picnic", "bbq"]),
   (.travel, ["travel", "departure", "bus", "carpool", "transport"])]

/-- The classifier `CalendarFetcher._detect_event_type`: case-insensitive
keyword search over title, description and categories; the first matching
type in table order wins. -/
def detectEventType (title : String) (description : Option String)
    (categories : List String) : Option EventType :=
  let text := pyLower title
  let text := match description with
    | some d => text ++ " " ++ pyLower d
    | none => text
  let text := if categories ≠ [] then
      text ++ " " ++ pyLower (strIntercalate "," categories)
    else text
  (typeKeywords.find? (fun p => p.2.any (fun kw => pyContains text kw))).map (·.1)

/-- The per-component parser `CalendarFetcher._parse_event_component`:
defaults the title to "Untitled Event", requires a start instant, defaults
the end instant to start plus one hour, forces naive instants to UTC, maps
the status text, infers the event type and builds the validated
`EventModel` with its content hash. -/
def parseEventComponent (newId : Nat) (now : PyDateTime)
    (sourceName sourceUrl : String) (sourceColor : Option String)
    (c : VEventComponent) : Except String EventModel :=
  match c.dtstart with
  | none => .error "Event missing DTSTART"
  | some startRaw =>
    let title := c.summary.getD "Untitled Event"
    let description := if pyTruthy c.description then c.description else none
    let location := if pyTruthy c.location then c.location else none
    let endRaw := match c.dtend with
      | some d => d
      | none => { startRaw with wall := startRaw.wall + 3600 }
    let startTime := if startRaw.tz = none then { startRaw with tz := some 0 }
      else startRaw
    let endTime := if endRaw.tz = none then { endRaw with tz := some 0 }
      else endRaw
    let uid := if pyTruthy c.uid then c.uid else none
    let statusStr := pyUpper (c.status.getD "CONFIRMED")
    let status := if statusStr = "CONFIRMED" then EventStatus.confirmed
      else if statusStr = "TENTATIVE" then EventStatus.tentative
      else if statusStr = "CANCELLED" then EventStatus.cancelled
      else EventStatus.confirmed
    match mkEventModel {
      id := newId
      title := title
      description := description
      start_time := startTime
      end_time := endTime
      location := location
      source_name := sourceName
      source_url := some sourceUrl
      color := sourceColor
      event_type := detectEventType title description c.categories
      status := status
      original_uid := uid
      tags := if c.categories ≠ [] then c.categories.map pyStrip else []
      created_at := now
      last_modified := now
      last_fetched := now
      metadata := [("raw_status", statusStr),
        ("has_timezone", if startRaw.tz = none then "False" else "True")] } with
    | .error e => .error e
    | .ok event => .ok (updateHash event)

/-- The filter `CalendarFetcher._should_include_event`: exclusion keywords
drop the event, then an inclusion list keeps only matches, otherwise the
event passes. -/
def shouldIncludeEvent (event : EventModel)
    (filterKeywords excludeKeywords : Option (List String)) : Bool :=
  let searchable := pyLower event.title
  let searchable := match event.description with
    | some d => searchable ++ " " ++ pyLower d
    | none => searchable
  let searchable := match event.location with
    | some l => searchable ++ " " ++ pyLower l
    | none => searchable
  if (excludeKeywords.getD []).any (fun kw => pyContains searchable (pyLower kw))
  then false
  else match filterKeywords with
    | none => true
    | some [] => true
    | some kws => kws.any (fun kw => pyContains searchable (pyLower kw))

/-- The component loop of `CalendarFetcher.parse_calendar_events`: stops
once `max_events` components parsed, skips a component whose parse raises
while the remaining components are still processed; ids of constructed
events are drawn from a counter standing in for `uuid4`. -/
def parseCalendarEvents (now : PyDateTime) (sourceName sourceUrl : String)
    (sourceColor : Option String) (maxEvents : Nat)
    (filterKeywords excludeKeywords : Option (List String)) :
    List VEventComponent → Nat → Nat → List EventModel
  | [], _, _ => []
  | c :: rest, processedCount, nextId =>
    if processedCount ≥ maxEvents then []
    else
      match parseEventComponent nextId now sourceName sourceUrl sourceColor c with
      | .ok event =>
        (if shouldIncludeEvent event filterKeywords excludeKeywords
         then [event] else []) ++
        parseCalendarEvents now sourceName sourceUrl sourceColor maxEvents
          filterKeywords excludeKeywords rest (processedCount + 1) (nextId + 1)
      | .error _ =>
        parseCalendarEvents now sourceName sourceUrl sourceColor maxEvents
          filterKeywords excludeKeywords rest processedCount nextId

/-- Error taxonomy of `services/fetcher.py`. -/
inductive FetchError where
  | authenticationError
  | timeoutError
  | parsingError
  | calendarFetchError
deriving DecidableEq, Repr

/-- An HTTP response as returned by the transport collaborator. -/
structure HttpResponse where
  status : Nat
  headers : List (String × String)
  text : String
deriving Repr

/-- The check `CalendarFetcher._is_valid_calendar_content`: non-blank and
containing both structural calendar markers, case-insensitively. -/
def isValidCalendarContent (content : String) : Bool :=
  if pyStrip content = "" then false
  else
    let upper := pyUpper content
    pyContains upper "BEGIN:VCALENDAR" ∧ pyContains upper "END:VCALENDAR"

/-- The response handling of `CalendarFetcher.fetch_calendar` (the
transport call itself is the collaborator's): 401 raises the
authentication error, 304 returns empty content with the headers, other
error statuses raise, and accepted content must carry the calendar
markers. -/
def fetchCalendarResponse (resp : HttpResponse) :
    Except FetchError (String × List (String × String)) :=
  if resp.status = 401 then .error .authenticationError
  else if resp.status = 304 then .ok ("", resp.headers)
  else if resp.status ≥ 400 then .error .calendarFetchError
  else if ¬ isValidCalendarContent resp.text then .error .parsingError
  else .ok (resp.text, resp.headers)

/-- The per-source task `fetch_single_calendar` inside
`CalendarFetcher.fetch_multiple_calendars`: empty returned content (the
304 path) yields an empty event list with no error; otherwise the content
is parsed, and any raised error is captured per source. -/
def fetchSingleCalendar (parseEvents : String → Except FetchError (List EventModel))
    (sourceName : String) (resp : HttpResponse) :
    String × (List EventModel × Option FetchError) :=
  match fetchCalendarResponse resp with
  | .error e => (sourceName, ([], some e))
  | .ok (calendarData, _) =>
    if calendarData = "" then (sourceName, ([], none))
    else
      match parseEvents calendarData with
      | .ok events => (sourceName, (events, none))
      | .error e => (sourceName, ([], some e))

/-- RFC 5545 TEXT escaping applied to property values on output
(backslash, semicolon, comma, newline). -/
def escapeText (s : String) : String :=
  String.mk (s.toList.flatMap (fun c =>
    if c = '\\' then ['\\', '\\']
    else if c = ';' then ['\\', ';']
    else if c = ',' then ['\\', ',']
    else if c = '\n' then ['\\', 'n']
    else [c]))

/-- Inverse TEXT unescaping applied when property values are parsed back. -/
def unescapeText (s : String) : String :=
  String.mk (go s.toList)
where
  go : List Char → List Char
  | [] => []
  | ['\\'] => ['\\']
  | '\\' :: c :: rest =>
    (if c = 'n' ∨ c = 'N' then '\n' else c) :: go rest
  | c :: rest => c :: go rest

/-- Basic-format date-time value of a wall clock (`YYYYMMDDTHHMMSS`). -/
def formatWallBasic (wall : Int) : String :=
  let days := wall.fdiv 86400
  let secs := (wall - days * 86400).toNat
  let (y, m, d) := civilFromDays days
  padNum 4 y.toNat ++ padNum 2 m ++ padNum 2 d ++ "T" ++
    padNum 2 (secs / 3600) ++ padNum 2 ((secs % 3600) / 60) ++
    padNum 2 (secs % 60)

/-- Modelled from the spec: the collaborator serialization of a date-time
property value (the repository delegates it to the `icalendar` library).
A UTC instant is rendered in basic format with the `Z` suffix; a naive
wall clock without it. -/
def dtToICal (d : PyDateTime) : String :=
  formatWallBasic d.wall ++ (if d.tz = some 0 then "Z" else "")

/-- The generator `ICalGenerator._generate_event_uid`: the original UID
plus the `@rallycal` suffix when present, otherwise an MD5 hash of title,
printed start and end times and source name with the same suffix. -/
def generateEventUid (e : EventModel) : String :=
  if pyTruthy e.original_uid then e.original_uid.getD "" ++ "@rallycal"
  else
    md5Hex (e.title ++ pyDateTimeStr e.start_time ++ pyDateTimeStr e.end_time ++
      e.source_name) ++ "@rallycal"

/-- The table `ICalGenerator._get_outlook_color_mapping`. -/
def outlookColorMap : List (String × String) :=
  [("#FF0000", "1"), ("#00FF00", "2"), ("#0000FF", "3"), ("#FFFF00", "4"),
   ("#FF00FF", "5"), ("#00FFFF", "6"), ("#FFA500", "7"), ("#800080", "8"),
   ("#FFC0CB", "9"), ("#A52A2A", "10")]

/-- Python `title()` rendering of an event type's value, as used for the
CATEGORIES entry. -/
def eventTypeTitle : EventType → String
  | .game => "Game"
  | .practice => "Practice"
  | .tournament => "Tournament"
  | .meeting => "Meeting"
  | .fundraiser => "Fundraiser"
  | .social => "Social"
  | .travel => "Travel"
  | .other => "Other"

/-- Python `str.lstrip('#')`. -/
def stripHashMarks (s : String) : String :=
  String.mk (s.toList.dropWhile (· = '#'))

/-- The event serialization of `ICalGenerator._add_event_to_calendar` as
the ordered property list of one VEVENT: required identifier and instants,
optional description and location, source extension fields, colour and
category entries, the source-prefixed summary, modification stamp,
sequence, status and opacity. -/
def eventProps (now : PyDateTime) (e : EventModel) : List (String × String) :=
  let props : List (String × String) :=
    [("UID", generateEventUid e),
     ("DTSTART", dtToICal e.start_time),
     ("DTEND", dtToICal e.end_time),
     ("DTSTAMP", dtToICal now),
     ("SUMMARY", escapeText e.title)]
  let props := props ++ (if pyTruthy e.description then
    [("DESCRIPTION", escapeText (e.description.getD ""))] else [])
  let props := props ++ (if pyTruthy e.location then
    [("LOCATION", escapeText (e.location.getD ""))] else [])
  let props := props ++ (if e.source_name ≠ "" then
    [("X-RALLYCAL-SOURCE", escapeText e.source_name)] else [])
  let props := props ++ (match e.color with
    | some color =>
      [("CATEGORIES", "Color-" ++ pyUpper (stripHashMarks color)),
       ("X-APPLE-STRUCTURED-LOCATION", color),
       ("X-MICROSOFT-CDO-BUSYSTATUS", "BUSY")] ++
      (match outlookColorMap.lookup (pyUpper color) with
       | some m => [("X-MICROSOFT-CDO-IMPORTANCE", m)]
       | none => [])
    | none => [])
  let categories := (match e.event_type with
    | some t => [eventTypeTitle t]
    | none => []) ++ e.tags
  let props := props ++ (if categories ≠ [] then
    [("CATEGORIES", strIntercalate "," (categories.map escapeText))] else [])
  let props := if e.source_name ≠ "" ∧
      ¬ pyStartsWith e.title ("[" ++ e.source_name ++ "]") then
    dictSet props "SUMMARY"
      (escapeText ("[" ++ e.source_name ++ "] " ++ e.title))
  else props
  let props := props ++ (if pyTruthy e.original_uid then
    [("X-RALLYCAL-ORIGINAL-UID", escapeText (e.original_uid.getD ""))] else [])
  let props := props ++ (if pyTruthy e.source_url then
    [("X-RALLYCAL-SOURCE-URL", escapeText (e.source_url.getD ""))] else [])
  props ++
    [("LAST-MODIFIED", dtToICal e.last_modified),
     ("SEQUENCE", toString e.sequence),
     ("STATUS", "CONFIRMED"),
     ("TRANSP", "OPAQUE")]

/-- The content lines of one serialized VEVENT. -/
def eventLines (now : PyDateTime) (e : EventModel) : List String :=
  "BEGIN:VEVENT" :: (eventProps now e).map (fun p => p.1 ++ ":" ++ p.2) ++
    ["END:VEVENT"]

/-- The content lines produced by `ICalGenerator.generate_calendar` with
the constructor defaults (calendar name, description, default timezone
"UTC").  With the UTC default and events carrying fixed offsets, the
timezone collection of `_add_timezone_component` contributes no VTIMEZONE
block (the default "UTC" is excluded and fixed-offset names fail the zone
lookup), so no timezone lines appear. -/
def calendarLines (now : PyDateTime) (events : List EventModel) : List String :=
  ["BEGIN:VCALENDAR",
   "PRODID:-//RallyCal//RallyCal v1.0//EN",
   "VERSION:2.0",
   "CALSCALE:GREGORIAN",
   "METHOD:PUBLISH",
   "X-WR-CALNAME:RallyCal Aggregated Calendar",
   "X-WR-CALDESC:Aggregated sports calendar from multiple sources",
   "X-WR-TIMEZONE:UTC",
   "REFRESH-INTERVAL:PT1H",
   "X-PUBLISHED-TTL:PT1H"] ++
  events.flatMap (eventLines now) ++
  ["END:VCALENDAR"]

/-- Modelled from the spec: RFC 5545 line folding of the collaborator
serializer (the repository delegates it to the `icalendar` library).  A
fold is inserted before any octet that would push the current physical
line past 75 octets, the continuation starting with one space. -/
def foldEmit : List Char → Nat → List Char
  | [], _ => []
  | c :: rest, count =>
    let b := (utf8Char c).length
    if count + b > 75 then
      '\r' :: '\n' :: ' ' :: c :: foldEmit rest (1 + b)
    else
      c :: foldEmit rest (count + b)

/-- Modelled from the spec: serialization of content lines to wire text
(`Calendar.to_ical().decode("utf-8")`); every content line, the last
included, is terminated by CRLF. -/
def linesToICal (lines : List String) : String :=
  strIntercalate "" (lines.map (fun l => String.mk (foldEmit l.toList 0) ++ "\r\n"))

/-- The feed text of `ICalGenerator.generate_calendar` under the
constructor defaults. -/
def generateCalendar (now : PyDateTime) (events : List EventModel) : String :=
  linesToICal (calendarLines now events)

/-- A parsed calendar component tree: component name, properties in
occurrence order, nested components. -/
inductive ICalComponent where
  | mk (name : String) (props : List (String × String))
      (subs : List ICalComponent)
deriving Repr

/-- Name of a parsed component. -/
def ICalComponent.name : ICalComponent → String
  | .mk n _ _ => n

/-- Properties of a parsed component. -/
def ICalComponent.props : ICalComponent → List (String × String)
  | .mk _ p _ => p

/-- Subcomponents of a parsed component. -/
def ICalComponent.subs : ICalComponent → List ICalComponent
  | .mk _ _ s => s

/-- Membership test `name in component` (keys are stored uppercased). -/
def hasProp (c : ICalComponent) (n : String) : Bool :=
  (c.props.lookup n).isSome

/-- Value access `str(component[name])` for a present property. -/
def getProp (c : ICalComponent) (n : String) : Option String :=
  c.props.lookup n

/-- Physical lines of the wire text with the CRLF convention: split on
newline, dropping one trailing carriage return per line. -/
def splitLinesCRLF (s : String) : List String :=
  (pySplitChar '\n' s).map (fun l =>
    if pyEndsWith l "\r" then String.mk (l.toList.take (l.toList.length - 1))
    else l)

/-- Unfolding of continuation lines (leading space or tab) into their
predecessor, as `Calendar.from_ical` performs before parsing. -/
def unfoldLines (ls : List String) : List String :=
  (ls.foldl (fun (acc : List String) l =>
    if pyStartsWith l " " ∨ pyStartsWith l "\t" then
      match acc with
      | [] => [pyDrop l 1]
      | a :: as => (a ++ pyDrop l 1) :: as
    else l :: acc) []).reverse

/-- Parse one content line into uppercased name (parameters dropped) and
decoded value; `none` models a parse failure of the calendar text. -/
def parseContentLine (l : String) : Option (String × String) :=
  match splitOnChar ':' l.toList with
  | [] => none
  | [_] => none
  | nameAndParams :: valueParts =>
    let name := nameAndParams.takeWhile (fun c => c ≠ ';')
    if name = [] then none
    else
      some (pyUpper (String.mk name),
        unescapeText (strIntercalate ":" (valueParts.map String.mk)))

/-- Recursive-descent parse of one component body, fuelled by twice the
number of remaining lines. -/
def parseBody (fuel : Nat) (name : String) (props : List (String × String))
    (subs : List ICalComponent) (lines : List String) :
    Option (ICalComponent × List String) :=
  match fuel with
  | 0 => none
  | fuel + 1 =>
    match lines with
    | [] => none
    | l :: rest =>
      if pyStartsWith l "END:" then
        if pyUpper (pyDrop l 4) = name then
          some (.mk name props subs, rest)
        else none
      else if pyStartsWith l "BEGIN:" then
        match parseBody fuel (pyUpper (pyDrop l 6)) [] [] rest with
        | none => none
        | some (sub, rem) => parseBody fuel name props (subs ++ [sub]) rem
      else
        match parseContentLine l with
        | some (n, v) => parseBody fuel name (props ++ [(n, v)]) subs rest
        | none => none

/-- The parse `Calendar.from_ical`: unfold, drop blank lines, read one
top-level component. -/
def parseICal (content : String) : Option ICalComponent :=
  let lines := (unfoldLines (splitLinesCRLF content)).filter (fun l => l ≠ "")
  match lines with
  | l :: rest =>
    if pyStartsWith l "BEGIN:" then
      match parseBody (2 * rest.length + 2) (pyUpper (pyDrop l 6)) [] [] rest with
      | some (c, []) => some c
      | _ => none
    else none
  | [] => none

mutual

/-- Pre-order component traversal (`Component.walk()`). -/
def walkComponents : ICalComponent → List ICalComponent
  | .mk n p subs => .mk n p subs :: walkComponentList subs

/-- Traversal of a subcomponent list, leftmost first. -/
def walkComponentList : List ICalComponent → List ICalComponent
  | [] => []
  | c :: rest => walkComponents c ++ walkComponentList rest

end

/-- Python `int(...)` applied to a decimal property value. -/
def pyInt (s : String) : Option Int :=
  let t := pyStrip s
  let (sign, digits) := match t.toList with
    | '-' :: rest => ((-1 : Int), rest)
    | '+' :: rest => ((1 : Int), rest)
    | l => ((1 : Int), l)
  if digits ≠ [] ∧ digits.all Char.isDigit then
    some (sign * (digits.foldl (fun a c => a * 10 + (c.toNat - 48)) 0 : Nat))
  else none

/-- The per-event checks of `ICalGenerator._validate_events` for the
event numbered `n`. -/
def validateOneEvent (n : Nat) (c : ICalComponent) : List String :=
  let tag := "Event " ++ toString n ++ ": "
  (if ¬ hasProp c "UID" then [tag ++ "Unique identifier is required"] else []) ++
  (if ¬ hasProp c "DTSTAMP" then [tag ++ "Date-time stamp is required"] else []) ++
  (if ¬ hasProp c "DTSTART" then [tag ++ "DTSTART is required"] else []) ++
  (if hasProp c "DTSTART" ∧ ¬ (hasProp c "DTEND" ∨ hasProp c "DURATION") then
    [tag ++ "Must have either DTEND or DURATION with DTSTART"] else []) ++
  (if hasProp c "DTEND" ∧ hasProp c "DURATION" then
    [tag ++ "Cannot have both DTEND and DURATION"] else []) ++
  (match getProp c "UID" with
   | some uid =>
     if uid = "" ∨ ¬ pyContains uid "@" then
       [tag ++ "UID should contain '@' for uniqueness"]
     else []
   | none => []) ++
  (match getProp c "SUMMARY" with
   | some s => if s.length > 255 then
       [tag ++ "SUMMARY longer than 255 characters"] else []
   | none => []) ++
  (match getProp c "SEQUENCE" with
   | some s =>
     match pyInt s with
     | some v => if v < 0 then [tag ++ "SEQUENCE must be non-negative"] else []
     | none => [tag ++ "SEQUENCE must be integer"]
   | none => []) ++
  (match getProp c "STATUS" with
   | some s =>
     if s ≠ "TENTATIVE" ∧ s ≠ "CONFIRMED" ∧ s ≠ "CANCELLED" then
       [tag ++ "Invalid STATUS '" ++ s ++ "'"]
     else []
   | none => []) ++
  (match getProp c "TRANSP" with
   | some s =>
     if s ≠ "OPAQUE" ∧ s ≠ "TRANSPARENT" then
       [tag ++ "Invalid TRANSP '" ++ s ++ "'"]
     else []
   | none => [])

/-- The event walk of `ICalGenerator._validate_events`. -/
def validateEvents (cal : ICalComponent) : List String :=
  let events := (walkComponents cal).filter (fun c => c.name = "VEVENT")
  let errs := (events.enumFrom 1).flatMap (fun p => validateOneEvent p.1 p.2)
  errs ++ (if events.length = 0 then ["No events found in calendar"] else [])

/-- The offset check `ICalGenerator._validate_offset_format`
(`^[+-]\d{4}$`). -/
def validOffsetFormat (s : String) : Bool :=
  match s.toList with
  | c :: rest => (c = '+' ∨ c = '-') ∧ rest.length = 4 ∧ rest.all Char.isDigit
  | [] => false

/-- The sub-block checks of `ICalGenerator._validate_timezone_component`. -/
def validateTimezoneSub (compType : String) (c : ICalComponent) : List String :=
  (if ¬ hasProp c "DTSTART" then [compType ++ ": DTSTART is required"] else []) ++
  (if ¬ hasProp c "TZOFFSETFROM" then
    [compType ++ ": TZOFFSETFROM is required"] else []) ++
  (if ¬ hasProp c "TZOFFSETTO" then
    [compType ++ ": TZOFFSETTO is required"] else []) ++
  (["TZOFFSETFROM", "TZOFFSETTO"].flatMap (fun prop =>
    match getProp c prop with
    | some v =>
      if ¬ validOffsetFormat v then
        [compType ++ ": Invalid " ++ prop ++ " format: " ++ v]
      else []
    | none => []))

/-- The timezone walk of `ICalGenerator._validate_timezones`. -/
def validateTimezones (cal : ICalComponent) : List String :=
  ((walkComponents cal).filter (fun c => c.name = "VTIMEZONE")).flatMap
    (fun tz =>
      (if ¬ hasProp tz "TZID" then ["VTIMEZONE: TZID is required"] else []) ++
      (tz.subs.flatMap (fun sub =>
        if sub.name = "STANDARD" then validateTimezoneSub "STANDARD" sub
        else if sub.name = "DAYLIGHT" then validateTimezoneSub "DAYLIGHT" sub
        else [])) ++
      (if ¬ (tz.subs.any (fun s => s.name = "STANDARD") ∨
             tz.subs.any (fun s => s.name = "DAYLIGHT")) then
        ["VTIMEZONE: Must have at least one STANDARD or DAYLIGHT component"]
       else []))

/-- The balance scan of `ICalGenerator._validate_structure`: this operates
on the raw text split at bare `\n`, so with CRLF line endings every split
element keeps its carriage return and the final CRLF leaves a trailing
empty element. -/
def validateStructure (content : String) : List String :=
  let lines := pySplitChar '\n' content
  let startErr :=
    if ¬ pyStartsWith (pyStrip (lines.headD "")) "BEGIN:VCALENDAR" then
      ["Calendar must start with BEGIN:VCALENDAR"] else []
  let endErr :=
    if ¬ pyEndsWith (pyStrip (lines.getLastD "")) "END:VCALENDAR" then
      ["Calendar must end with END:VCALENDAR"] else []
  let scan : List (String × Nat) × List String := (lines.enumFrom 1).foldl
    (fun (st : List (String × Nat) × List String) p =>
      let (stack, errs) := st
      let line := pyStrip p.2
      if pyStartsWith line "BEGIN:" then
        ((pyDrop line 6, p.1) :: stack, errs)
      else if pyStartsWith line "END:" then
        let t := pyDrop line 4
        match stack with
        | [] => (stack, errs ++ ["Line " ++ toString p.1 ++ ": END:" ++ t ++
            " without matching BEGIN"])
        | (bt, bl) :: rest =>
          if bt ≠ t then
            (rest, errs ++ ["Line " ++ toString p.1 ++ ": END:" ++ t ++
              " doesn't match BEGIN:" ++ bt ++ " on line " ++ toString bl])
          else (rest, errs)
      else (stack, errs))
    ([], [])
  let leftover := scan.1.reverse.map (fun p =>
    "Line " ++ toString p.2 ++ ": BEGIN:" ++ p.1 ++ " without matching END")
  startErr ++ endErr ++ scan.2 ++ leftover

/-- The octet check of `ICalGenerator._validate_line_lengths` (again on
the raw `\n` split, carriage returns counted). -/
def validateLineLengths (content : String) : List String :=
  ((pySplitChar '\n' content).enumFrom 1).flatMap (fun p =>
    let n := utf8Len p.2
    if n > 75 then
      ["Line " ++ toString p.1 ++ ": Exceeds 75 octets (" ++ toString n ++
       " octets)"]
    else [])

/-- The validator `ICalGenerator.validate_calendar`: parse, calendar-level
property checks, event checks, timezone checks, structural balance, line
lengths; valid exactly when no violation was collected. -/
def validateCalendar (content : String) : Bool × List String :=
  match parseICal content with
  | none => (false, ["Failed to parse calendar"])
  | some cal =>
    match (walkComponents cal).find? (fun c => c.name = "VCALENDAR") with
    | none => (false, ["No VCALENDAR component found"])
    | some cc =>
      let errors :=
        (if ¬ hasProp cc "PRODID" then ["Product identifier is required"] else []) ++
        (if ¬ hasProp cc "VERSION" then ["Version is required (must be 2.0)"] else []) ++
        (match getProp cc "VERSION" with
         | some v => if v ≠ "2.0" then ["VERSION must be 2.0, found: " ++ v] else []
         | none => []) ++
        (match getProp cc "PRODID" with
         | some p =>
           if ¬ pyStartsWith p "-//" ∨ ¬ pyContains (pyDrop p 3) "//" then
             ["PRODID format invalid: " ++ p]
           else []
         | none => []) ++
        (match getProp cc "CALSCALE" with
         | some v => if v ≠ "GREGORIAN" then
             ["CALSCALE must be GREGORIAN if present, found: " ++ v] else []
         | none => []) ++
        validateEvents cal ++
        validateTimezones cal ++
        validateStructure content ++
        validateLineLengths content
      (errors = [], errors)

/-- Deletion of every UID content line from the wire text, the mutilation
of the round-trip property's second half. -/
def removeUidLines (content : String) : String :=
  strIntercalate "\n"
    ((pySplitChar '\n' content).filter (fun l => ¬ pyStartsWith l "UID:"))

/-- A placeholder event record used only as the `getD` default when
extracting the known-successful result of a concrete construction. -/
def dummyEvent : EventModel := {
  id := 0, original_uid := none, title := "x", description := none,
  start_time := ⟨0, some 0⟩, end_time := ⟨1, some 0⟩, all_day := false,
  timezone_name := "UTC", location := none, source_name := "s",
  source_url := none, source_calendar_id := none, color := none,
  event_type := none, tags := [], status := .confirmed, sequence := 0,
  created_at := ⟨0, some 0⟩, last_modified := ⟨0, some 0⟩,
  last_fetched := ⟨0, some 0⟩, content_hash := none, duplicate_of := none,
  recurrence_id := none, recurrence_rule := none, metadata := [] }

/-- Fixed reference clock for the concrete scenarios
(2025-01-01 13:00:00 UTC). -/
def sampleNow : PyDateTime := ⟨1735736400, some 0⟩

/-- Constructor arguments of a well-formed concrete event. -/
def sampleInput : EventInput := {
  id := 1
  original_uid := some "abc123"
  title := "Practice"
  start_time := ⟨1735736400, some 0⟩
  end_time := ⟨1735740000, some 0⟩
  source_name := "Src"
  created_at := sampleNow
  last_modified := sampleNow
  last_fetched := sampleNow }

/-- The validated event obtained from `sampleInput`. -/
def sampleEvent : EventModel :=
  (mkEventModel sampleInput).toOption.getD dummyEvent

/-- Constructor arguments whose end instant precedes the start instant. -/
def badEndInput : EventInput :=
  { sampleInput with end_time := ⟨1735732800, some 0⟩ }

/-- The default-configured colour manager (all constructor defaults). -/
def cmDefault : ColorManager :=
  (initColorManager none true true).toOption.getD ⟨[], false, false⟩

/-- A minimal parsed VEVENT component: no summary, a naive start instant,
no end instant. -/
def cMin : VEventComponent :=
  { dtstart := some ⟨1735736400, none⟩ }

/-- A parsed VEVENT component with a summary but no start instant. -/
def cNoStart : VEventComponent :=
  { summary := some "Orphan" }

/-- The event obtained by parsing `cMin`. -/
def mMin : EventModel :=
  (parseEventComponent 7 sampleNow "Src" "u" none cMin).toOption.getD
    dummyEvent

/-- A parsed VEVENT component with an aware start instant and a
timezone-naive end instant. -/
def cNaiveEnd : VEventComponent :=
  { dtstart := some ⟨1735736400, some 0⟩, dtend := some ⟨1735740000, none⟩ }

/-- The event obtained by parsing `cNaiveEnd`. -/
def mNaiveEnd : EventModel :=
  (parseEventComponent 8 sampleNow "Src" "u" none cNaiveEnd).toOption.getD
    dummyEvent

/-- A 999-character description. -/
def longA : String := String.mk (List.replicate 999 'a')

/-- A 1000-character description differing from `longA`. -/
def longB : String := String.mk (List.replicate 1000 'b')

/-- Constructor arguments of a valid canonical event with a long
description. -/
def c10CanonInput : EventInput := { sampleInput with description := some longA }

/-- Constructor arguments of a valid duplicate event whose long
description is not a substring of the canonical one. -/
def c10DupInput : EventInput :=
  { sampleInput with
      id := 2
      description := some longB
      original_uid := some "d2"
      source_name := "Other" }

/-- The validated long-description canonical event. -/
def c10Canon : EventModel := (mkEventModel c10CanonInput).toOption.getD dummyEvent

/-- The validated long-description duplicate event. -/
def c10Dup : EventModel := (mkEventModel c10DupInput).toOption.getD dummyEvent

/-- Store and objects materializing the long-description pair. -/
def c10S1 : Store := (allocEvent ⟨[], []⟩ c10Canon).1

/-- The canonical object of the long-description pair. -/
def c10CObj : EventObj := (allocEvent ⟨[], []⟩ c10Canon).2

/-- The store holding both long-description objects. -/
def c10S2 : Store := (allocEvent c10S1 c10Dup).1

/-- The duplicate object of the long-description pair. -/
def c10DObj : EventObj := (allocEvent c10S1 c10Dup).2

/-- Constructor arguments of a small duplicate event with a short
description. -/
def frameDupInput : EventInput :=
  { sampleInput with
      id := 2
      description := some "dup notes"
      original_uid := some "x2"
      source_name := "Other" }

/-- The validated small duplicate event. -/
def frameDup : EventModel := (mkEventModel frameDupInput).toOption.getD dummyEvent

/-- Store after materializing the sample canonical event. -/
def frameS1 : Store := (allocEvent ⟨[], []⟩ sampleEvent).1

/-- The canonical object of the small pair. -/
def frameCObj : EventObj := (allocEvent ⟨[], []⟩ sampleEvent).2

/-- The store holding both small objects. -/
def frameS2 : Store := (allocEvent frameS1 frameDup).1

/-- The duplicate object of the small pair. -/
def frameDObj : EventObj := (allocEvent frameS1 frameDup).2

/-- The successful merge result of the small pair. -/
def frameResult : Store × EventObj × EventObj × EventObj :=
  (mergeDuplicateEvents frameS2 frameCObj frameDObj sampleNow).toOption.getD
    (⟨[], []⟩, frameCObj, frameCObj, frameCObj)

/-- A constant text-similarity scorer used to exercise the duplicate
pipeline concretely. -/
def textSimOne : String → String → ℚ := fun _ _ => 1

/-- Constructor arguments of an existing event coinciding in time with
the sample event but from another source. -/
def c4OldInput : EventInput :=
  { sampleInput with
      id := 5
      original_uid := some "old"
      source_name := "Other" }

/-- The validated existing event for the duplicate scenario. -/
def c4Old : EventModel := (mkEventModel c4OldInput).toOption.getD dummyEvent

/-- The deduplicator configuration produced by the constructor defaults
(weights 0.4 / 0.3 / 0.2 / 0.1, threshold 0.8, 30-minute tolerance). -/
def c4Cfg : DedupConfig := ⟨2/5, 3/10, 1/5, 1/10, 4/5, 1800⟩

/-- The duplicate verdict the pipeline records for the sample event
against the existing event. -/
def c4Result : DuplicationResult :=
  dupResultFor textSimOne c4Cfg [c4Old]
    (createTimeBuckets ([c4Old] ++ [sampleEvent])) sampleEvent

end RallyCal

namespace RallyCal

/-- Helper: a successful construction pins the validated end time to the
awareness-normalized raw end accepted by the end-after-start validator. -/
theorem mkEventModel_ok_shape (i : EventInput) (m : EventModel)
    (h : mkEventModel i = .ok m) :
    ∃ r, validateEndAfterStart (validateTimezoneAware i.start_time) i.end_time
        = .ok r ∧
      m.start_time = validateTimezoneAware i.start_time ∧
      m.end_time = validateTimezoneAware r := by
  unfold mkEventModel at h
  split at h
  · exact absurd h (by simp)
  · split at h
    · exact absurd h (by simp)
    · split at h
      · exact absurd h (by simp)
      · next r hv =>
        refine ⟨r, hv, ?_⟩
        split at h
        · exact absurd h (by simp)
        · split at h
          · exact absurd h (by simp)
          · split at h
            · exact absurd h (by simp)
            · cases h; exact ⟨rfl, rfl⟩

/-- Helper: awareness normalization always yields an aware datetime. -/
theorem validateTimezoneAware_isAware (d : PyDateTime) :
    ∃ o, (validateTimezoneAware d).tz = some o := by
  unfold validateTimezoneAware
  cases h : d.tz with
  | none => exact ⟨0, by simp [h]⟩
  | some o => exact ⟨o, by simp [h]⟩

/-- Helper: awareness normalization fixes aware datetimes. -/
theorem validateTimezoneAware_of_aware (d : PyDateTime) (o : Int)
    (h : d.tz = some o) : validateTimezoneAware d = d := by
  simp [validateTimezoneAware, h]

/-- Helper: a raw end instant that compares less-or-equal to the raw start
instant makes the end-after-start validator reject, so construction
fails. -/
theorem mkEventModel_le_fails (i : EventInput) (o : Ordering)
    (hc : pyCompare i.end_time i.start_time = .ok o) (ho : o ≠ .gt) :
    ∃ e, mkEventModel i = .error e := by
  have hval : ∃ e, validateEndAfterStart (validateTimezoneAware i.start_time)
      i.end_time = .error e := by
    cases he : i.end_time.tz with
    | none =>
      cases hs : i.start_time.tz with
      | none =>
        refine ⟨"TypeError: cannot compare naive and aware datetimes", ?_⟩
        simp [validateEndAfterStart, validateTimezoneAware, pyCompare, he, hs]
      | some os => simp [pyCompare, he, hs] at hc
    | some oe =>
      cases hs : i.start_time.tz with
      | none => simp [pyCompare, he, hs] at hc
      | some os =>
        refine ⟨"End time must be after start time", ?_⟩
        have hstart : validateTimezoneAware i.start_time = i.start_time := by
          simp [validateTimezoneAware, hs]
        simp [validateEndAfterStart, hstart, hc, ho]
  obtain ⟨e, he⟩ := hval
  unfold mkEventModel
  split
  · exact ⟨_, rfl⟩
  · split
    · exact ⟨_, rfl⟩
    · rw [he]; exact ⟨e, rfl⟩

end RallyCal

namespace RallyCal

/-- C1.  Every constructed `EventModel` satisfies `end_time > start_time`
strictly (the aware comparison of the stored instants yields `gt`), and
attempting to construct one whose raw end compares less-or-equal to the
raw start fails with a validation error. -/
theorem C1_event_end_after_start :
    (∀ (i : EventInput) (m : EventModel), mkEventModel i = .ok m →
      pyCompare m.end_time m.start_time = .ok .gt) ∧
    (∀ (i : EventInput) (o : Ordering),
      pyCompare i.end_time i.start_time = .ok o → o ≠ .gt →
      ∃ e, mkEventModel i = .error e) := by
  constructor
  · intro i m h
    obtain ⟨r, hv, hs, he⟩ := mkEventModel_ok_shape i m h
    obtain ⟨os, hos⟩ := validateTimezoneAware_isAware i.start_time
    unfold validateEndAfterStart at hv
    cases hcmp : pyCompare i.end_time (validateTimezoneAware i.start_time) with
    | error e => rw [hcmp] at hv; cases hv
    | ok o =>
      rw [hcmp] at hv
      dsimp only at hv
      by_cases hgt : o = Ordering.gt
      · rw [if_pos hgt] at hv
        cases hv
        subst hgt
        obtain ⟨oe, hoe⟩ : ∃ oe, i.end_time.tz = some oe := by
          by_contra hno
          push_neg at hno
          have hnone : i.end_time.tz = none := by
            cases h2 : i.end_time.tz with
            | none => rfl
            | some o2 => exact absurd h2 (hno o2)
          unfold pyCompare at hcmp
          rw [hnone, hos] at hcmp
          cases hcmp
        rw [hs, he, validateTimezoneAware_of_aware i.end_time oe hoe]
        exact hcmp
      · rw [if_neg hgt] at hv; cases hv
  · intro i o hc ho
    exact mkEventModel_le_fails i o hc ho

/-- C1 witness: the concrete sample event is constructed successfully and
its instants compare `gt`; the concrete input with the end one hour before
the start is rejected. -/
theorem C1_event_end_after_start_witness :
    pyCompare sampleEvent.end_time sampleEvent.start_time = .ok .gt ∧
    ∃ e, mkEventModel badEndInput = .error e :=
  ⟨C1_event_end_after_start.1 sampleInput sampleEvent rfl,
   C1_event_end_after_start.2 badEndInput .lt rfl (by decide)⟩

/-- C5 counterexample: caller-supplied non-negative weights 0.4, 0.3, 0.2
and 0.105 total 1.005, within the 0.01 tolerance, so the constructor keeps
them unnormalized and they do not sum to 1.0. -/
theorem C5_counterexample :
    (dedupInit (2/5) (3/10) (1/5) (21/200) (4/5) 30).map
      (fun cfg => cfg.titleWeight + cfg.timeWeight + cfg.locationWeight +
        cfg.descriptionWeight) = .ok (201/200) ∧ ((201 : ℚ)/200) ≠ 1 := by
  constructor
  · have hb : ¬(|((2:ℚ)/5 + 3/10 + 1/5 + 21/200) - 1| > 1/100) := by
      have h1 : ((2:ℚ)/5 + 3/10 + 1/5 + 21/200) - 1 = 1/200 := by norm_num
      rw [h1, abs_of_nonneg (by norm_num)]
      norm_num
    simp only [dedupInit]
    rw [if_neg hb]
    simp only [Except.map]
    norm_num
  · norm_num

/-- C5 amended.  The four factor weights sum to exactly 1.0 after
construction whenever the supplied total deviates from 1.0 by more than
the 0.01 normalization tolerance (and is non-zero); a supplied total
inside the tolerance band is kept as-is, so only then may the stored sum
differ from 1.0. -/
theorem C5_weights_normalized (tw tiw lw dw θ : ℚ) (tol : Int)
    (cfg : DedupConfig) (hdev : |tw + tiw + lw + dw - 1| > 1/100)
    (hnz : tw + tiw + lw + dw ≠ 0)
    (h : dedupInit tw tiw lw dw θ tol = .ok cfg) :
    cfg.titleWeight + cfg.timeWeight + cfg.locationWeight +
      cfg.descriptionWeight = 1 := by
  unfold dedupInit at h
  rw [if_pos hdev, if_neg hnz] at h
  cases h
  field_simp

/-- C5 witness: all-ones weights (total 4) are normalized to quarters,
which sum to 1. -/
theorem C5_weights_normalized_witness :
    (⟨1/4, 1/4, 1/4, 1/4, 4/5, 1800⟩ : DedupConfig).titleWeight +
      (⟨1/4, 1/4, 1/4, 1/4, 4/5, 1800⟩ : DedupConfig).timeWeight +
      (⟨1/4, 1/4, 1/4, 1/4, 4/5, 1800⟩ : DedupConfig).locationWeight +
      (⟨1/4, 1/4, 1/4, 1/4, 4/5, 1800⟩ : DedupConfig).descriptionWeight = 1 :=
  C5_weights_normalized 1 1 1 1 (4/5) 30 ⟨1/4, 1/4, 1/4, 1/4, 4/5, 1800⟩
    (by norm_num) (by norm_num)
    (by
      have hp : |((1:ℚ) + 1 + 1 + 1) - 1| > 1/100 := by
        rw [show ((1:ℚ) + 1 + 1 + 1) - 1 = 3 by norm_num,
          abs_of_nonneg (by norm_num)]
        norm_num
      simp only [dedupInit]
      rw [if_pos hp, if_neg (by norm_num)]
      norm_num)

/-- C6.  On a 304 response the per-source fetch task returns the empty
event list with no error — the code keeps no cache of previously fetched
normalized events, so nothing cached is (or could be) returned. -/
theorem C6_304_returns_empty
    (parseEvents : String → Except FetchError (List EventModel))
    (sourceName : String) (resp : HttpResponse) (h : resp.status = 304) :
    fetchSingleCalendar parseEvents sourceName resp =
      (sourceName, ([], none)) := by
  simp [fetchSingleCalendar, fetchCalendarResponse, h]

/-- C6 witness: a concrete 304 response for a source yields the empty
event list and no error. -/
theorem C6_304_returns_empty_witness :
    fetchSingleCalendar (fun _ => .ok []) "Team B" ⟨304, [], ""⟩ =
      ("Team B", ([], none)) :=
  C6_304_returns_empty (fun _ => .ok []) "Team B" ⟨304, [], ""⟩ rfl

/-- C9.  Colour assignment is deterministic across calls and process runs:
the result of `assign_color` is a function of the constructed manager,
identifier and context alone, independent of the per-process hash
randomization environment; concretely, the sport-table path and the
MD5-hash palette path always produce these fixed colours. -/
theorem C9_assign_color_deterministic :
    (∀ (env1 env2 : RunEnv) (m : ColorManager) (identifier : String)
      (context : ColorContext),
      assignColorInRun env1 m identifier context =
        assignColorInRun env2 m identifier context) ∧
    (∀ env, assignColorInRun env cmDefault "soccer club" [] = "#00AA00") ∧
    (∀ env, assignColorInRun env cmDefault "zzz" [] = "#673AB7") :=
  ⟨fun _ _ _ _ _ => rfl,
   fun _ => by unfold assignColorInRun; decide,
   fun _ => by unfold assignColorInRun; decide⟩

end RallyCal

namespace RallyCal

/-- Helper: a trace of expected failures never leaves the open state. -/
theorem cbRun_open_stays_open (cfg : CBConfig) (ts : List Int) :
    ∀ (s : CBState), s.state = .open →
      (cbRun cfg s (ts.map (fun t => (t, CBOutcome.expectedFailure)))).state
        = .open := by
  induction ts with
  | nil => intro s hs; exact hs
  | cons t rest ih =>
    intro s hs
    simp only [List.map, cbRun]
    apply ih
    by_cases hr : cbShouldAttemptReset cfg s.lastFailureTime t
    · simp [cbCall, hs, hr, cbToHalfOpen, cbOnFailure, cbOpenCircuit]
    · simp [cbCall, hs, hr]

/-- Helper: from a closed state, a trace of expected failures exactly
reaching the threshold ends with the breaker open. -/
theorem cbRun_failures_open (cfg : CBConfig) (ts : List Int) :
    ∀ (s : CBState), s.state = .closed →
      s.failureCount + ts.length = cfg.failureThreshold → ts ≠ [] →
      (cbRun cfg s (ts.map (fun t => (t, CBOutcome.expectedFailure)))).state
        = .open := by
  induction ts with
  | nil => intro s _ _ hne; exact absurd rfl hne
  | cons t rest ih =>
    intro s hclosed hcount _
    simp only [List.map, cbRun]
    have hcall : (cbCall cfg s t .expectedFailure).2 =
        cbOnFailure cfg { s with totalRequests := s.totalRequests + 1 } t := by
      simp [cbCall, hclosed]
    rw [hcall]
    by_cases hth : s.failureCount + 1 ≥ cfg.failureThreshold
    · have hopen : (cbOnFailure cfg
          { s with totalRequests := s.totalRequests + 1 } t).state = .open := by
        simp [cbOnFailure, hclosed, cbOpenCircuit, hth]
      exact cbRun_open_stays_open cfg rest _ hopen
    · have hrest : rest ≠ [] := by
        intro hnil
        subst hnil
        simp at hcount
        omega
      apply ih
      · simp [cbOnFailure, hclosed, cbOpenCircuit, hth]
      · simp [cbOnFailure, hclosed, cbOpenCircuit, hth]
        simp at hcount
        omega
      · exact hrest

/-- C2.  The circuit-breaker state machine: from the initial closed state,
a trace of threshold-many consecutive expected failures leaves the breaker
open; while open and inside the recovery window a call fast-fails with the
distinct breaker-open error, touching nothing but the request counter and
never invoking the wrapped operation (the result is the same for every
outcome the operation would have had); once the recovery timeout has
elapsed since the last failure the next call is let through, a success
closing the breaker and zeroing the failure count, a failure reopening
it. -/
theorem C2_circuit_breaker_state_machine :
    (∀ (cfg : CBConfig) (ts : List Int), 1 ≤ cfg.failureThreshold →
      ts.length = cfg.failureThreshold →
      (cbRun cfg cbInit
        (ts.map (fun t => (t, CBOutcome.expectedFailure)))).state = .open) ∧
    (∀ (cfg : CBConfig) (s : CBState) (now t : Int) (outcome : CBOutcome),
      s.state = .open → s.lastFailureTime = some t →
      now - t < cfg.recoveryTimeout →
      cbCall cfg s now outcome =
        (.breakerOpenError, { s with totalRequests := s.totalRequests + 1 })) ∧
    (∀ (cfg : CBConfig) (s : CBState) (now t : Int),
      s.state = .open → s.lastFailureTime = some t →
      now - t ≥ cfg.recoveryTimeout →
      ((cbCall cfg s now .success).1 = .returned ∧
       (cbCall cfg s now .success).2.state = .closed ∧
       (cbCall cfg s now .success).2.failureCount = 0) ∧
      ((cbCall cfg s now .expectedFailure).1 = .raisedExpected ∧
       (cbCall cfg s now .expectedFailure).2.state = .open)) := by
  refine ⟨?_, ?_, ?_⟩
  · intro cfg ts hthr hlen
    apply cbRun_failures_open
    · rfl
    · simpa [cbInit] using hlen
    · intro hnil
      subst hnil
      simp at hlen
      omega
  · intro cfg s now t outcome hopen hlast hlt
    have hnr : ¬ cbShouldAttemptReset cfg s.lastFailureTime now := by
      simp [cbShouldAttemptReset, hlast]
      omega
    simp [cbCall, hopen, hnr]
  · intro cfg s now t hopen hlast hge
    have hr : cbShouldAttemptReset cfg s.lastFailureTime now := by
      simp [cbShouldAttemptReset, hlast]
      omega
    constructor
    · refine ⟨?_, ?_, ?_⟩ <;>
        simp [cbCall, hopen, hr, cbToHalfOpen, cbOnSuccess, cbCloseCircuit]
    · constructor <;>
        simp [cbCall, hopen, hr, cbToHalfOpen, cbOnFailure, cbOpenCircuit]

/-- C2 witness: with threshold 2 and a 60-second recovery timeout, two
failures at times 0 and 1 open the breaker; from the concrete open state a
call at time 30 is fast-failed untouched, while at time 100 a success
closes the breaker with a zeroed failure count and a failure reopens
it. -/
theorem C2_circuit_breaker_state_machine_witness :
    ((cbRun ⟨2, 60⟩ cbInit
      ([0, 1].map (fun t => (t, CBOutcome.expectedFailure)))).state = .open) ∧
    (cbCall ⟨2, 60⟩ ⟨.open, 2, some 1, none, 2, 2, 0, 1⟩ 30 .success =
      (.breakerOpenError, ⟨.open, 2, some 1, none, 3, 2, 0, 1⟩)) ∧
    ((cbCall ⟨2, 60⟩ ⟨.open, 2, some 1, none, 2, 2, 0, 1⟩ 100 .success).2.state
      = .closed) ∧
    ((cbCall ⟨2, 60⟩ ⟨.open, 2, some 1, none, 2, 2, 0, 1⟩ 100
      .expectedFailure).2.state = .open) := by
  refine ⟨?_, ?_, ?_, ?_⟩
  · exact C2_circuit_breaker_state_machine.1 ⟨2, 60⟩ [0, 1]
      (by decide) (by decide)
  · exact C2_circuit_breaker_state_machine.2.1 ⟨2, 60⟩
      ⟨.open, 2, some 1, none, 2, 2, 0, 1⟩ 30 1 .success rfl rfl (by decide)
  · exact (C2_circuit_breaker_state_machine.2.2 ⟨2, 60⟩
      ⟨.open, 2, some 1, none, 2, 2, 0, 1⟩ 100 1 rfl rfl (by decide)).1.2.1
  · exact (C2_circuit_breaker_state_machine.2.2 ⟨2, 60⟩
      ⟨.open, 2, some 1, none, 2, 2, 0, 1⟩ 100 1 rfl rfl (by decide)).2.2

end RallyCal

namespace RallyCal

/-- Helper: a successful construction keeps the raw title. -/
theorem mkEventModel_ok_title (i : EventInput) (m : EventModel)
    (h : mkEventModel i = .ok m) : m.title = i.title := by
  unfold mkEventModel at h
  split at h
  · exact absurd h (by simp)
  · split at h
    · exact absurd h (by simp)
    · split at h
      · exact absurd h (by simp)
      · split at h
        · exact absurd h (by simp)
        · split at h
          · exact absurd h (by simp)
          · split at h
            · exact absurd h (by simp)
            · cases h; rfl

/-- Helper: the end-after-start validator returns the raw end value it
accepted. -/
theorem validateEndAfterStart_ok_eq (s v r : PyDateTime)
    (h : validateEndAfterStart s v = .ok r) : r = v := by
  unfold validateEndAfterStart at h
  split at h
  · cases h
  · split at h
    · cases h; rfl
    · cases h

/-- Helper: the hash update changes no field except the content hash. -/
theorem updateHash_fields (e : EventModel) :
    (updateHash e).title = e.title ∧
    (updateHash e).start_time = e.start_time ∧
    (updateHash e).end_time = e.end_time := by
  simp [updateHash]

end RallyCal

namespace RallyCal

/-- Helper: once the processed count has reached the cap, no further
component is parsed. -/
theorem parseCalendarEvents_maxed (now : PyDateTime) (sn su : String)
    (sc : Option String) (maxE : Nat) (fk ek : Option (List String))
    (l : List VEventComponent) (pc ni : Nat) (h : pc ≥ maxE) :
    parseCalendarEvents now sn su sc maxE fk ek l pc ni = [] := by
  cases l with
  | nil => rfl
  | cons x rest => simp [parseCalendarEvents, h]

/-- C7.  Parsing one event component: an absent summary yields the title
"Untitled Event"; an absent start instant is a hard parse failure for that
component only — the component is dropped from the parsed list while every
other component contributes unchanged; an absent end instant defaults the
end to start plus one hour; timezone-naive start and end instants are each
forced to UTC, keeping their wall clocks. -/
theorem C7_parse_event_component :
    (∀ (newId : Nat) (now : PyDateTime) (sn su : String)
      (sc : Option String) (c : VEventComponent) (m : EventModel),
      c.summary = none → parseEventComponent newId now sn su sc c = .ok m →
      m.title = "Untitled Event") ∧
    (∀ (newId : Nat) (now : PyDateTime) (sn su : String)
      (sc : Option String) (c : VEventComponent), c.dtstart = none →
      parseEventComponent newId now sn su sc c =
        .error "Event missing DTSTART") ∧
    (∀ (now : PyDateTime) (sn su : String) (sc : Option String)
      (maxE : Nat) (fk ek : Option (List String))
      (c : VEventComponent) (l2 : List VEventComponent), c.dtstart = none →
      ∀ (l1 : List VEventComponent) (pc ni : Nat),
      parseCalendarEvents now sn su sc maxE fk ek (l1 ++ c :: l2) pc ni =
        parseCalendarEvents now sn su sc maxE fk ek (l1 ++ l2) pc ni) ∧
    (∀ (newId : Nat) (now : PyDateTime) (sn su : String)
      (sc : Option String) (c : VEventComponent) (m : EventModel),
      c.dtend = none → parseEventComponent newId now sn su sc c = .ok m →
      m.end_time = { m.start_time with wall := m.start_time.wall + 3600 }) ∧
    (∀ (newId : Nat) (now : PyDateTime) (sn su : String)
      (sc : Option String) (c : VEventComponent) (m : EventModel) (w : Int),
      c.dtstart = some ⟨w, none⟩ →
      parseEventComponent newId now sn su sc c = .ok m →
      m.start_time = ⟨w, some 0⟩) ∧
    (∀ (newId : Nat) (now : PyDateTime) (sn su : String)
      (sc : Option String) (c : VEventComponent) (m : EventModel)
      (s : PyDateTime) (w : Int),
      c.dtstart = some s → c.dtend = some ⟨w, none⟩ →
      parseEventComponent newId now sn su sc c = .ok m →
      m.end_time = ⟨w, some 0⟩) := by
  refine ⟨?_, ?_, ?_, ?_, ?_, ?_⟩
  · intro newId now sn su sc c m hsum h
    unfold parseEventComponent at h
    cases hds : c.dtstart with
    | none => rw [hds] at h; exact absurd h (by simp)
    | some startRaw =>
      rw [hds] at h
      dsimp only at h
      generalize hmk : mkEventModel _ = res at h
      cases res with
      | error e => cases h
      | ok event =>
        cases h
        have ht := mkEventModel_ok_title _ _ hmk
        rw [(updateHash_fields event).1, ht]
        simp [hsum]
  · intro newId now sn su sc c h
    unfold parseEventComponent
    rw [h]
  · intro now sn su sc maxE fk ek c l2 hds l1
    have herr : ∀ ni, parseEventComponent ni now sn su sc c =
        .error "Event missing DTSTART" := by
      intro ni
      unfold parseEventComponent
      rw [hds]
    induction l1 with
    | nil =>
      intro pc ni
      by_cases hmax : pc ≥ maxE
      · rw [parseCalendarEvents_maxed _ _ _ _ _ _ _ _ _ _ hmax,
          parseCalendarEvents_maxed _ _ _ _ _ _ _ _ _ _ hmax]
      · simp only [List.nil_append]
        simp only [parseCalendarEvents]
        rw [if_neg hmax, herr]
    | cons x xs ih =>
      intro pc ni
      simp only [List.cons_append, parseCalendarEvents]
      by_cases hmax : pc ≥ maxE
      · simp [hmax]
      · simp only [if_neg hmax]
        cases hp : parseEventComponent ni now sn su sc x with
        | ok e => simp [ih]
        | error err => simp [ih]
  · intro newId now sn su sc c m hde h
    unfold parseEventComponent at h
    cases hds : c.dtstart with
    | none => rw [hds] at h; exact absurd h (by simp)
    | some startRaw =>
      rw [hds, hde] at h
      dsimp only at h
      generalize hmk : mkEventModel _ = res at h
      cases res with
      | error e => cases h
      | ok event =>
        cases h
        obtain ⟨r, hv, hstart, hend⟩ := mkEventModel_ok_shape _ _ hmk
        have hr := validateEndAfterStart_ok_eq _ _ _ hv
        rw [(updateHash_fields event).2.1, (updateHash_fields event).2.2,
          hstart, hend, hr]
        cases htz : startRaw.tz with
        | none => simp [htz, validateTimezoneAware]
        | some o => simp [htz, validateTimezoneAware]
  · intro newId now sn su sc c m w hds h
    unfold parseEventComponent at h
    rw [hds] at h
    dsimp only at h
    generalize hmk : mkEventModel _ = res at h
    cases res with
    | error e => cases h
    | ok event =>
      cases h
      obtain ⟨r, hv, hstart, hend⟩ := mkEventModel_ok_shape _ _ hmk
      rw [(updateHash_fields event).2.1, hstart]
      simp [validateTimezoneAware]
  · intro newId now sn su sc c m s w hds hde h
    unfold parseEventComponent at h
    rw [hds, hde] at h
    dsimp only at h
    generalize hmk : mkEventModel _ = res at h
    cases res with
    | error e => cases h
    | ok event =>
      cases h
      obtain ⟨r, hv, hstart, hend⟩ := mkEventModel_ok_shape _ _ hmk
      have hr := validateEndAfterStart_ok_eq _ _ _ hv
      rw [(updateHash_fields event).2.2, hend, hr]
      simp [validateTimezoneAware]

end RallyCal

namespace RallyCal

/-- C7 witness: the concrete component with no summary, a naive start and
no end parses to "Untitled Event" with a UTC start and a one-hour span;
the concrete component without a start fails and is dropped from the
parsed list; the concrete component with an aware start and a naive end
gets its end forced to UTC. -/
theorem C7_parse_event_component_witness :
    mMin.title = "Untitled Event" ∧
    parseEventComponent 9 sampleNow "Src" "u" none cNoStart =
      .error "Event missing DTSTART" ∧
    parseCalendarEvents sampleNow "Src" "u" none 1000 none none
      ([] ++ cNoStart :: [cMin]) 0 7 =
      parseCalendarEvents sampleNow "Src" "u" none 1000 none none
        ([] ++ [cMin]) 0 7 ∧
    mMin.end_time = { mMin.start_time with wall := mMin.start_time.wall + 3600 } ∧
    mMin.start_time = ⟨1735736400, some 0⟩ ∧
    mNaiveEnd.end_time = ⟨1735740000, some 0⟩ :=
  ⟨C7_parse_event_component.1 7 sampleNow "Src" "u" none cMin mMin rfl rfl,
   C7_parse_event_component.2.1 9 sampleNow "Src" "u" none cNoStart rfl,
   C7_parse_event_component.2.2.1 sampleNow "Src" "u" none 1000 none none
     cNoStart [cMin] rfl [] 0 7,
   C7_parse_event_component.2.2.2.1 7 sampleNow "Src" "u" none cMin mMin rfl
     rfl,
   C7_parse_event_component.2.2.2.2.1 7 sampleNow "Src" "u" none cMin mMin
     1735736400 rfl rfl,
   C7_parse_event_component.2.2.2.2.2 8 sampleNow "Src" "u" none cNaiveEnd
     mNaiveEnd ⟨1735736400, some 0⟩ 1735740000 rfl rfl rfl⟩

end RallyCal

namespace RallyCal

/-- Helper: reading below the length of the left part of an append is
unaffected by the appended tail. -/
theorem listGetD_append {α : Type} (l l2 : List α) (n : Nat) (d : α)
    (h : n < l.length) : (l ++ l2).getD n d = l.getD n d := by
  induction l generalizing n with
  | nil => simp at h
  | cons x xs ih =>
    cases n with
    | zero => rfl
    | succ k =>
      simp only [List.cons_append, List.getD_cons_succ]
      exact ih k (by simpa using h)

/-- Helper: writing one index leaves every other index unchanged. -/
theorem listGetD_set_ne {α : Type} (l : List α) (m n : Nat) (v d : α)
    (h : m ≠ n) : (l.set m v).getD n d = l.getD n d := by
  induction l generalizing m n with
  | nil => rfl
  | cons x xs ih =>
    cases m with
    | zero =>
      cases n with
      | zero => exact absurd rfl h
      | succ k => rfl
    | succ j =>
      cases n with
      | zero => rfl
      | succ k =>
        simp only [List.set_cons_succ, List.getD_cons_succ]
        exact ih j k (fun he => h (by rw [he]))

/-- C10 amended.  Whenever `merge_duplicate_events` returns (that is, when
every re-validated assignment on the merged copy is accepted — in
particular when the combined description stays within the 2000-character
bound), the canonical argument object is returned unchanged with its tag
list and metadata dict contents untouched in the store, the duplicate
argument is mutated only by setting its `duplicate_of` field to the
canonical event's id with its containers untouched, and the merged event
is a newly created object whose containers are fresh allocations distinct
from both arguments'. -/
theorem C10_merge_frame (s : Store) (c d : EventObj) (now : PyDateTime)
    (s2 : Store) (cA dA mA : EventObj)
    (hct : c.tagsRef < s.lists.length) (hcm : c.metadataRef < s.dicts.length)
    (hdt : d.tagsRef < s.lists.length) (hdm : d.metadataRef < s.dicts.length)
    (h : mergeDuplicateEvents s c d now = .ok (s2, cA, dA, mA)) :
    cA = c ∧
    dA = { d with value := { d.value with duplicate_of := some c.value.id } } ∧
    s2.getList c.tagsRef = s.getList c.tagsRef ∧
    s2.getDict c.metadataRef = s.getDict c.metadataRef ∧
    s2.getList d.tagsRef = s.getList d.tagsRef ∧
    s2.getDict d.metadataRef = s.getDict d.metadataRef ∧
    mA.tagsRef ≠ c.tagsRef ∧ mA.tagsRef ≠ d.tagsRef ∧
    mA.metadataRef ≠ c.metadataRef ∧ mA.metadataRef ≠ d.metadataRef := by
  cases hdesc : mergeDescription c.value d.value c.value with
  | error e =>
    unfold mergeDuplicateEvents at h
    dsimp only at h
    rw [hdesc] at h
    cases h
  | ok mv1 =>
    cases hloc : mergeLocation c.value d.value mv1 with
    | error e =>
      unfold mergeDuplicateEvents at h
      dsimp only at h
      rw [hdesc] at h
      dsimp only at h
      rw [hloc] at h
      cases h
    | ok mv2 =>
      unfold mergeDuplicateEvents at h
      dsimp only at h
      rw [hdesc] at h
      dsimp only at h
      rw [hloc] at h
      dsimp only [Store.allocList, Store.allocDict, Store.setDict,
        Store.getList, Store.getDict] at h
      cases h
      refine ⟨rfl, rfl, ?_, ?_, ?_, ?_, ?_, ?_, ?_, ?_⟩
      · exact listGetD_append _ _ _ _ hct
      · show ((((s.dicts ++ [_]).set s.dicts.length _).set s.dicts.length
          _).getD c.metadataRef []) = s.dicts.getD c.metadataRef []
        rw [listGetD_set_ne _ _ _ _ _ (by omega),
          listGetD_set_ne _ _ _ _ _ (by omega),
          listGetD_append _ _ _ _ hcm]
      · exact listGetD_append _ _ _ _ hdt
      · show ((((s.dicts ++ [_]).set s.dicts.length _).set s.dicts.length
          _).getD d.metadataRef []) = s.dicts.getD d.metadataRef []
        rw [listGetD_set_ne _ _ _ _ _ (by omega),
          listGetD_set_ne _ _ _ _ _ (by omega),
          listGetD_append _ _ _ _ hdm]
      · show s.lists.length ≠ c.tagsRef
        omega
      · show s.lists.length ≠ d.tagsRef
        omega
      · show s.dicts.length ≠ c.metadataRef
        omega
      · show s.dicts.length ≠ d.metadataRef
        omega

end RallyCal

namespace RallyCal

/-- C10 counterexample: for the concrete pair of validly constructed
events whose distinct long descriptions concatenate past the
2000-character description bound, `merge_duplicate_events` raises out of
the re-validated description assignment instead of returning a merged
event, and the duplicate's back-reference is never set — so the claim
fails as stated for this pair. -/
theorem C10_merge_counterexample :
    mkEventModel c10CanonInput = .ok c10Canon ∧
    mkEventModel c10DupInput = .ok c10Dup ∧
    mergeDuplicateEvents c10S2 c10CObj c10DObj sampleNow =
      .error "description too long" := by
  refine ⟨rfl, rfl, ?_⟩
  rfl

/-- C10 witness: merging the concrete small pair succeeds; the canonical
object and its containers are unchanged, the duplicate is mutated only in
its `duplicate_of` field, and the merged object's containers are fresh. -/
theorem C10_merge_frame_witness :
    frameResult.2.1 = frameCObj ∧
    frameResult.2.2.1 = { frameDObj with value :=
      { frameDObj.value with duplicate_of := some frameCObj.value.id } } ∧
    frameResult.1.getList frameCObj.tagsRef =
      frameS2.getList frameCObj.tagsRef ∧
    frameResult.1.getDict frameCObj.metadataRef =
      frameS2.getDict frameCObj.metadataRef ∧
    frameResult.1.getList frameDObj.tagsRef =
      frameS2.getList frameDObj.tagsRef ∧
    frameResult.1.getDict frameDObj.metadataRef =
      frameS2.getDict frameDObj.metadataRef ∧
    frameResult.2.2.2.tagsRef ≠ frameCObj.tagsRef ∧
    frameResult.2.2.2.tagsRef ≠ frameDObj.tagsRef ∧
    frameResult.2.2.2.metadataRef ≠ frameCObj.metadataRef ∧
    frameResult.2.2.2.metadataRef ≠ frameDObj.metadataRef :=
  C10_merge_frame frameS2 frameCObj frameDObj sampleNow
    frameResult.1 frameResult.2.1 frameResult.2.2.1 frameResult.2.2.2
    (by decide) (by decide) (by decide) (by decide) rfl

end RallyCal

namespace RallyCal

/-- Helper: the best-candidate fold computes the maximum scored confidence
over the candidates other than the event itself, above the accumulator. -/
theorem bestCandidate_foldl (textSim : String → String → ℚ)
    (cfg : DedupConfig) (e : EventModel) (cs : List EventModel) :
    ∀ (init : ℚ × Option EventModel × Option SimilarityFactors),
    (cs.foldl
      (fun best candidate =>
        if candidate.id = e.id then best
        else
          let factors := calcSimilarityFactors textSim cfg.timeToleranceSeconds
            e candidate
          let confidence := calcOverallConfidence cfg factors
          if confidence > best.1 then (confidence, some candidate, some factors)
          else best)
      init).1 =
    ((cs.filter (fun c => c.id ≠ e.id)).map
      (fun c => calcOverallConfidence cfg
        (calcSimilarityFactors textSim cfg.timeToleranceSeconds e c))).foldl
      max init.1 := by
  induction cs with
  | nil => intro init; rfl
  | cons c cs ih =>
    intro init
    by_cases hid : c.id = e.id
    · have hdec : (decide (c.id ≠ e.id)) = false := by simp [hid]
      simp only [List.foldl_cons, List.filter_cons]
      rw [if_pos hid, hdec, if_neg (by simp : ¬(false = true))]
      exact ih init
    · have hdec : (decide (c.id ≠ e.id)) = true := by simp [hid]
      simp only [List.foldl_cons, List.filter_cons]
      rw [if_neg hid, hdec, if_pos rfl]
      simp only [List.map_cons, List.foldl_cons]
      by_cases hq : calcOverallConfidence cfg
          (calcSimilarityFactors textSim cfg.timeToleranceSeconds e c) > init.1
      · rw [if_pos hq, ih]
        dsimp only
        congr 1
        exact (max_eq_right (le_of_lt hq)).symm
      · rw [if_neg hq, ih]
        congr 1
        push_neg at hq
        exact (max_eq_left hq).symm

/-- Helper: the confidence recorded by the per-event body is the maximum
scored candidate confidence, floored at zero for an empty candidate
list. -/
theorem bestCandidate_confidence (textSim : String → String → ℚ)
    (cfg : DedupConfig) (e : EventModel) (cs : List EventModel) :
    (bestCandidate textSim cfg e cs).1 =
    ((cs.filter (fun c => c.id ≠ e.id)).map
      (fun c => calcOverallConfidence cfg
        (calcSimilarityFactors textSim cfg.timeToleranceSeconds e c))).foldl
      max 0 :=
  bestCandidate_foldl textSim cfg e cs (0, none, none)

/-- Helper: association lookup over a keyed map of a duplicate-free list
finds the entry of each member. -/
theorem keyed_map_lookup {β : Type} (g : EventModel → β) :
    ∀ (l : List EventModel) (e : EventModel), e ∈ l →
    (l.map (fun x => x.id)).Nodup →
    (l.map (fun x => (x.id, g x))).lookup e.id = some (g e) := by
  intro l
  induction l with
  | nil => intro e he; cases he
  | cons x xs ih =>
    intro e he hnd
    simp only [List.map_cons, List.lookup]
    rcases List.mem_cons.mp he with heq | hmem
    · subst heq
      simp
    · have hne : e.id ≠ x.id := by
        intro hcontra
        have hxin : x.id ∈ xs.map (fun y => y.id) := by
          rw [← hcontra]
          exact List.mem_map.mpr ⟨e, hmem, rfl⟩
        exact (List.nodup_cons.mp hnd).1 hxin
      have hbeq : (e.id == x.id) = false := by
        simpa using hne
      rw [hbeq]
      exact ih e hmem (List.nodup_cons.mp hnd).2

end RallyCal

namespace RallyCal

/-- Helper: pointwise map congruence. -/
theorem listMapCongr {α β : Type} (f g : α → β) :
    ∀ (l : List α), (∀ a ∈ l, f a = g a) → l.map f = l.map g := by
  intro l
  induction l with
  | nil => intro _; rfl
  | cons x xs ih =>
    intro h
    simp only [List.map_cons]
    rw [h x (List.mem_cons_self x xs), ih (fun a ha =>
      h a (List.mem_cons_of_mem x ha))]

/-- Helper: the composite confidence of a pair is the weighted factor sum
with the same-source penalty, the matching-type boost and the cap. -/
theorem overallConfidence_spec (textSim : String → String → ℚ)
    (cfg : DedupConfig) (e1 e2 : EventModel) :
    calcOverallConfidence cfg
      (calcSimilarityFactors textSim cfg.timeToleranceSeconds e1 e2) =
    min 1 ((textSim e1.title e2.title * cfg.titleWeight +
      calcTimeSimilarity cfg.timeToleranceSeconds e1.start_time e1.end_time
        e2.start_time e2.end_time * cfg.timeWeight +
      textSim (e1.location.getD "") (e2.location.getD "") * cfg.locationWeight +
      textSim (e1.description.getD "") (e2.description.getD "") *
        cfg.descriptionWeight) *
      (if e1.source_name = e2.source_name then 7/10 else 1) *
      (if e1.event_type = e2.event_type then 11/10 else 1)) := by
  unfold calcOverallConfidence calcSimilarityFactors
  dsimp only
  by_cases hs : e1.source_name = e2.source_name <;>
    by_cases ht : e1.event_type = e2.event_type <;>
      simp [hs, ht]

/-- C4.  The composite duplicate confidence of every pair equals the
weighted sum of the title, time, location and description similarity
factors, multiplied by the fixed 0.7 penalty when both events come from
the same source and by the fixed 1.1 boost when their event types are
equal, capped at 1.0; and each event's recorded verdict marks it a
duplicate exactly when the maximum composite confidence over its
tolerance-window candidates meets or exceeds the configured threshold. -/
theorem C4_confidence_formula_and_threshold :
    (∀ (textSim : String → String → ℚ) (cfg : DedupConfig)
      (e1 e2 : EventModel),
      calcOverallConfidence cfg
        (calcSimilarityFactors textSim cfg.timeToleranceSeconds e1 e2) =
      min 1 ((textSim e1.title e2.title * cfg.titleWeight +
        calcTimeSimilarity cfg.timeToleranceSeconds e1.start_time e1.end_time
          e2.start_time e2.end_time * cfg.timeWeight +
        textSim (e1.location.getD "") (e2.location.getD "") *
          cfg.locationWeight +
        textSim (e1.description.getD "") (e2.description.getD "") *
          cfg.descriptionWeight) *
        (if e1.source_name = e2.source_name then 7/10 else 1) *
        (if e1.event_type = e2.event_type then 11/10 else 1))) ∧
    (∀ (textSim : String → String → ℚ) (cfg : DedupConfig)
      (events existing : List EventModel) (e : EventModel)
      (r : DuplicationResult),
      (events.map (fun x => x.id)).Nodup → e ∈ events →
      (findDuplicates textSim cfg events existing).lookup e.id = some r →
      (r.isDuplicate = true ↔ r.confidence ≥ cfg.duplicateThreshold) ∧
      r.confidence =
        (((findPotentialDuplicates cfg.timeToleranceSeconds e
            (createTimeBuckets (existing ++ events)) existing).filter
            (fun c => c.id ≠ e.id)).map
          (fun c =>
            min 1 ((textSim e.title c.title * cfg.titleWeight +
              calcTimeSimilarity cfg.timeToleranceSeconds e.start_time
                e.end_time c.start_time c.end_time * cfg.timeWeight +
              textSim (e.location.getD "") (c.location.getD "") *
                cfg.locationWeight +
              textSim (e.description.getD "") (c.description.getD "") *
                cfg.descriptionWeight) *
              (if e.source_name = c.source_name then 7/10 else 1) *
              (if e.event_type = c.event_type then 11/10 else 1)))).foldl
          max 0) := by
  constructor
  · exact overallConfidence_spec
  · intro textSim cfg events existing e r hnd hmem hlk
    unfold findDuplicates at hlk
    dsimp only at hlk
    rw [keyed_map_lookup
      (fun ev => dupResultFor textSim cfg existing
        (createTimeBuckets (existing ++ events)) ev)
      events e hmem hnd] at hlk
    have hre : r = dupResultFor textSim cfg existing
        (createTimeBuckets (existing ++ events)) e := by
      cases hlk
      rfl
    subst hre
    constructor
    · simp [dupResultFor]
    · show (bestCandidate textSim cfg e _).1 = _
      rw [bestCandidate_confidence]
      congr 1
      apply listMapCongr
      intro c _
      exact overallConfidence_spec textSim cfg e c

end RallyCal

namespace RallyCal

/-- C4 witness: the confidence formula instantiated at the concrete pair,
and the recorded verdict of the sample event against the coinciding
existing event, with every hypothesis discharged concretely. -/
theorem C4_confidence_formula_and_threshold_witness :
    (calcOverallConfidence c4Cfg
      (calcSimilarityFactors textSimOne c4Cfg.timeToleranceSeconds
        sampleEvent c4Old) =
      min 1 ((textSimOne sampleEvent.title c4Old.title * c4Cfg.titleWeight +
        calcTimeSimilarity c4Cfg.timeToleranceSeconds sampleEvent.start_time
          sampleEvent.end_time c4Old.start_time c4Old.end_time *
          c4Cfg.timeWeight +
        textSimOne (sampleEvent.location.getD "") (c4Old.location.getD "") *
          c4Cfg.locationWeight +
        textSimOne (sampleEvent.description.getD "")
          (c4Old.description.getD "") * c4Cfg.descriptionWeight) *
        (if sampleEvent.source_name = c4Old.source_name then 7/10 else 1) *
        (if sampleEvent.event_type = c4Old.event_type then 11/10 else 1))) ∧
    ((c4Result.isDuplicate = true ↔
      c4Result.confidence ≥ c4Cfg.duplicateThreshold) ∧
     c4Result.confidence =
      (((findPotentialDuplicates c4Cfg.timeToleranceSeconds sampleEvent
          (createTimeBuckets ([c4Old] ++ [sampleEvent])) [c4Old]).filter
          (fun c => c.id ≠ sampleEvent.id)).map
        (fun c =>
          min 1 ((textSimOne sampleEvent.title c.title * c4Cfg.titleWeight +
            calcTimeSimilarity c4Cfg.timeToleranceSeconds
              sampleEvent.start_time sampleEvent.end_time c.start_time
              c.end_time * c4Cfg.timeWeight +
            textSimOne (sampleEvent.location.getD "") (c.location.getD "") *
              c4Cfg.locationWeight +
            textSimOne (sampleEvent.description.getD "")
              (c.description.getD "") * c4Cfg.descriptionWeight) *
            (if sampleEvent.source_name = c.source_name then 7/10 else 1) *
            (if sampleEvent.event_type = c.event_type then 11/10 else 1)))).foldl
        max 0) :=
  ⟨C4_confidence_formula_and_threshold.1 textSimOne c4Cfg sampleEvent c4Old,
   C4_confidence_formula_and_threshold.2 textSimOne c4Cfg [sampleEvent]
     [c4Old] sampleEvent c4Result (by decide) (by decide) rfl⟩

end RallyCal

namespace RallyCal

/-- C3.  Round-trip evaluation at a well-formed non-empty event list: the
freshly generated calendar text does NOT validate cleanly — the validator
splits the raw text at bare newlines, so the final CRLF leaves a trailing
empty element and the check of the last line reports "Calendar must end
with END:VCALENDAR" as the sole violation, making `is_valid` false where
the round-trip property promises true with no violations.  The second
half of the property does hold: deleting the UID line from the text makes
re-validation report the missing unique identifier specifically. -/
theorem C3_roundtrip_validator_bug :
    validateCalendar (generateCalendar sampleNow [sampleEvent]) =
      (false, ["Calendar must end with END:VCALENDAR"]) ∧
    "Event 1: Unique identifier is required" ∈
      (validateCalendar (removeUidLines
        (generateCalendar sampleNow [sampleEvent]))).2 := by
  constructor
  · decide
  · decide

end RallyCal
